import Mathlib

/-!
Verification of the real-estate simulation engine (`property_sim_refactor.py`)
and its down-payment sweep (`auto_sim.py`).

Python floats are modelled as exact rationals (ℚ); the arithmetic of the
program is closed-form and the claims under study are about its algebraic
structure, not about floating-point rounding.  Python runtime failures
(`ZeroDivisionError` on `float / 0.0`, and the error raised when the summary
indexes row 0 of an empty result frame) are modelled with an explicit
`Except` error type; the source performs no input validation, so these are
the only failure points.
-/


/-- Errors the Python code can actually raise at runtime. -/
inductive SimError where
  /-- Python `ZeroDivisionError` (division of a float by `0.0`). -/
  | zeroDivision : SimError
  /-- Failure when indexing row 0 / row -1 of an empty result frame. -/
  | emptyFrame : SimError
deriving DecidableEq, Repr

/-- `pct_to_dec` from `property_sim_refactor.py`: percent to decimal. -/
def pct_to_dec (p : ℚ) : ℚ := p / 100

/-- `clamp_nonnegative` from `property_sim_refactor.py`. -/
def clamp_nonnegative (x : ℚ) : ℚ := max 0 x

/-- The `PropertySim` dataclass configuration fields (the internal
`df`/`results` caches are not data).  `amort_years` is a Python int and is
modelled as ℤ: the code accepts negative values, and they behave differently
from 0 (`(1+r)**n` evaluates at a negative exponent without error).  `years`
is also a Python int, but every non-positive value makes `range(years*12)`
empty exactly as 0 does, so ℕ with 0 represents all of them faithfully. -/
structure PropertySim where
  purchase_price : ℚ
  down_payment_percent : ℚ
  annual_interest_percent : ℚ
  amort_years : ℤ
  rental_type : String := "long_term"
  monthly_rent : ℚ := 0
  rent_growth_percent_per_year : ℚ := 2
  vacancy_percent : ℚ := 5
  nightly_rate : ℚ := 0
  occupancy_percent : ℚ := 65
  cleaning_fee_per_stay : ℚ := 100
  avg_stay_length_nights : ℚ := 3
  platform_fee_percent : ℚ := 15
  tax_percent_of_price_per_year : ℚ := 12/10
  insurance_percent_of_price_per_year : ℚ := 6/10
  maintenance_percent_of_price_per_year : ℚ := 1
  other_costs_monthly : ℚ := 0
  years : ℕ := 20
  appreciation_percent_per_year : ℚ := 3
  closing_costs_percent_of_price : ℚ := 2
deriving DecidableEq

namespace PropertySim

/-- Property `closing_costs`. -/
def closing_costs (s : PropertySim) : ℚ :=
  s.purchase_price * pct_to_dec s.closing_costs_percent_of_price

/-- Property `down_payment`. -/
def down_payment (s : PropertySim) : ℚ :=
  s.purchase_price * pct_to_dec s.down_payment_percent

/-- Property `loan_amount`. -/
def loan_amount (s : PropertySim) : ℚ :=
  clamp_nonnegative (s.purchase_price - s.down_payment)

/-- Property `total_upfront`. -/
def total_upfront (s : PropertySim) : ℚ := s.down_payment + s.closing_costs

/-- Property `tax_yearly`. -/
def tax_yearly (s : PropertySim) : ℚ :=
  s.purchase_price * pct_to_dec s.tax_percent_of_price_per_year

/-- Property `insurance_yearly`. -/
def insurance_yearly (s : PropertySim) : ℚ :=
  s.purchase_price * pct_to_dec s.insurance_percent_of_price_per_year

/-- Property `maintenance_yearly`. -/
def maintenance_yearly (s : PropertySim) : ℚ :=
  s.purchase_price * pct_to_dec s.maintenance_percent_of_price_per_year

/-- Property `monthly_rate`. -/
def monthly_rate (s : PropertySim) : ℚ :=
  pct_to_dec s.annual_interest_percent / 12

/-- Property `total_months`. -/
def total_months (s : PropertySim) : ℕ := s.years * 12

/-- `mortgage_payment_monthly` (always called with `balance=None`, so `L` is
the initial loan amount).  Python raises `ZeroDivisionError` when `n == 0`
in the zero-rate branch, when `(1+r) ** n` is evaluated at base `0.0` with a
negative exponent, or when `(1+r)^n - 1 == 0`; a negative `n` is otherwise
accepted (float `**` supports negative integer exponents), yielding a
negative payment. -/
def mortgage_payment_monthlyE (s : PropertySim) : Except SimError ℚ :=
  let L := s.loan_amount
  let r := s.monthly_rate
  let n : ℤ := s.amort_years * 12
  if r = 0 then
    if (n : ℚ) = 0 then .error .zeroDivision
    else .ok (L / (n : ℚ))
  else
    if (1 + r : ℚ) = 0 ∧ n < 0 then .error .zeroDivision
    else if ((1 + r) ^ n - 1 : ℚ) = 0 then .error .zeroDivision
    else .ok (L * (r * (1 + r) ^ n) / ((1 + r) ^ n - 1))

/-- `calculate_monthly_revenue`.  The short-term branch divides by
`avg_stay_length_nights`; Python raises `ZeroDivisionError` when it is 0.
Every `rental_type` other than `"short_term"` takes the long-term branch. -/
def calculate_monthly_revenueE (s : PropertySim) (base_rate : ℚ) :
    Except SimError ℚ :=
  if s.rental_type = "short_term" then
    let days_per_month : ℚ := 30
    let occupied_days := days_per_month * pct_to_dec s.occupancy_percent
    if s.avg_stay_length_nights = 0 then .error .zeroDivision
    else
      let num_stays := occupied_days / s.avg_stay_length_nights
      let gross_monthly := base_rate * occupied_days +
        s.cleaning_fee_per_stay * num_stays
      let net_monthly := gross_monthly * (1 - pct_to_dec s.platform_fee_percent)
      .ok net_monthly
  else
    .ok (base_rate * (1 - pct_to_dec s.vacancy_percent))

/-- `initial_cash_on_cash_percent`.  Divides by `total_upfront`; Python
raises `ZeroDivisionError` when it is 0. -/
def initial_cash_on_cash_percentE (s : PropertySim) : Except SimError ℚ := do
  let eff_rent_year1 ←
    if s.rental_type = "short_term" then
      (calculate_monthly_revenueE s s.nightly_rate).map (· * 12)
    else
      (calculate_monthly_revenueE s s.monthly_rent).map (· * 12)
  let expenses_year1 := s.tax_yearly + s.insurance_yearly +
    s.maintenance_yearly + s.other_costs_monthly * 12
  let noi_year1 := eff_rent_year1 - expenses_year1
  if s.total_upfront = 0 then .error .zeroDivision
  else .ok (noi_year1 / s.total_upfront * 100)
end PropertySim


/-- One row of the time series appended by `PropertySim.run` (the calendar
`date` column carries no content beyond `month_index` and is omitted). -/
structure MonthRecord where
  month_index : ℕ
  effective_rent : ℚ
  expenses : ℚ
  mortgage_payment : ℚ
  interest : ℚ
  principal : ℚ
  balance : ℚ
  monthly_cash_flow : ℚ
  cumulative_cash_flow : ℚ
  property_value : ℚ
deriving DecidableEq

/-- Default record used with `List.getD` when stating indexed properties. -/
def rec0 : MonthRecord := ⟨0, 0, 0, 0, 0, 0, 0, 0, 0, 0⟩

/-- The mutable loop state of `PropertySim.run`. -/
structure LoopState where
  base_rate : ℚ
  current_price : ℚ
  monthly_tax : ℚ
  monthly_ins : ℚ
  monthly_maint : ℚ
  balance : ℚ
  mmtg : ℚ
  cumulative_cf : ℚ
  cumulative_principal : ℚ
deriving DecidableEq

namespace PropertySim

/-- One iteration of the `for m in range(months)` loop of `run`: annual
bumps, revenue, mortgage split, expenses, cash flow, record append, and the
post-payoff zeroing of the payment. -/
def stepE (s : PropertySim) (st : LoopState) (m : ℕ) :
    Except SimError (LoopState × MonthRecord) := do
  let st :=
    if m > 0 ∧ m % 12 = 0 then
      let base_rate := st.base_rate * (1 + pct_to_dec s.rent_growth_percent_per_year)
      let current_price := st.current_price * (1 + pct_to_dec s.appreciation_percent_per_year)
      { st with
        base_rate := base_rate
        current_price := current_price
        monthly_tax := current_price * pct_to_dec s.tax_percent_of_price_per_year / 12
        monthly_ins := current_price * pct_to_dec s.insurance_percent_of_price_per_year / 12
        monthly_maint := current_price * pct_to_dec s.maintenance_percent_of_price_per_year / 12 }
    else st
  let eff_rent ← calculate_monthly_revenueE s st.base_rate
  let interest := st.balance * s.monthly_rate
  let principal := clamp_nonnegative (min (st.mmtg - interest) st.balance)
  let balance := clamp_nonnegative (st.balance - principal)
  let expenses := st.monthly_tax + st.monthly_ins + st.monthly_maint + s.other_costs_monthly
  let monthly_cf := eff_rent - expenses - st.mmtg
  let cumulative_cf := st.cumulative_cf + monthly_cf
  let cumulative_principal := st.cumulative_principal + principal
  let row : MonthRecord :=
    { month_index := m
      effective_rent := eff_rent
      expenses := expenses
      mortgage_payment := st.mmtg
      interest := interest
      principal := principal
      balance := balance
      monthly_cash_flow := monthly_cf
      cumulative_cash_flow := cumulative_cf
      property_value := st.current_price }
  let mmtg := if balance ≤ 0 then 0 else st.mmtg
  .ok ({ st with
          balance := balance
          mmtg := mmtg
          cumulative_cf := cumulative_cf
          cumulative_principal := cumulative_principal }, row)

/-- The loop of `run`, iterated from month index `m` for `k` months. -/
def runMonthsE (s : PropertySim) (st : LoopState) (m : ℕ) :
    ℕ → Except SimError (LoopState × List MonthRecord)
  | 0 => .ok (st, [])
  | k + 1 => do
    let (st', r) ← stepE s st m
    let (stF, rest) ← runMonthsE s st' (m + 1) k
    .ok (stF, r :: rest)

/-- The time-series part of `run`: initialisation of the loop state (payment
computed once from the initial loan amount) and the month loop. -/
def simulateE (s : PropertySim) :
    Except SimError (LoopState × List MonthRecord) := do
  let mmtg ← s.mortgage_payment_monthlyE
  let st0 : LoopState :=
    { base_rate := if s.rental_type = "short_term" then s.nightly_rate else s.monthly_rent
      current_price := s.purchase_price
      monthly_tax := s.tax_yearly / 12
      monthly_ins := s.insurance_yearly / 12
      monthly_maint := s.maintenance_yearly / 12
      balance := s.loan_amount
      mmtg := mmtg
      cumulative_cf := 0
      cumulative_principal := 0 }
  runMonthsE s st0 0 s.total_months
end PropertySim


/-- The `self.results` summary dictionary built at the end of `run`. -/
structure SummaryMetrics where
  monthly_mortgage : ℚ
  initial_cash_on_cash_percent : ℚ
  ending_monthly_cash_flow : ℚ
  cumulative_cash_flow : ℚ
  terminal_equity : ℚ
  total_invested_est : ℚ
  total_return_est : ℚ
  payback_month_on_upfront : Option ℕ
deriving DecidableEq

namespace PropertySim

/-- `run` followed by the summary block.  With an empty frame (zero months)
the access `df["cumulative_cash_flow"].iloc[0]` fails; then the summary
recomputes the payment and the cash-on-cash figure, each of which can raise
`ZeroDivisionError`. -/
def runE (s : PropertySim) :
    Except SimError (List MonthRecord × SummaryMetrics) := do
  let (stF, recs) ← s.simulateE
  let upfront := s.total_upfront
  let neg_cf := min 0 stF.cumulative_cf
  let total_invested := upfront + |neg_cf|
  let terminal_equity := stF.current_price - stF.balance
  let total_return := terminal_equity - (s.purchase_price - s.down_payment) + stF.cumulative_cf
  match recs.head? with
  | none => .error .emptyFrame
  | some r0 =>
    let payback : Option ℕ :=
      if 0 ≤ r0.cumulative_cash_flow then some 0
      else recs.findIdx? (fun r => decide (upfront ≤ r.cumulative_cash_flow))
    do
      let mm ← s.mortgage_payment_monthlyE
      let coc ← s.initial_cash_on_cash_percentE
      let ending := ((recs.getLast?).getD r0).monthly_cash_flow
      .ok (recs,
        { monthly_mortgage := mm
          initial_cash_on_cash_percent := coc
          ending_monthly_cash_flow := ending
          cumulative_cash_flow := stF.cumulative_cf
          terminal_equity := terminal_equity
          total_invested_est := total_invested
          total_return_est := total_return
          payback_month_on_upfront := payback })
end PropertySim


/-- One row of the sweep results frame built by
`AutoSim.down_payment_for_cashflow`. -/
structure SweepRow where
  down_payment_percentage : ℚ
  down_payment : ℚ
  monthly_cash_flow : ℚ
  effective_rent : ℚ
  monthly_expenses : ℚ
  monthly_mortgage : ℚ
  initial_coc_percent : ℚ
  cumulative_cf : ℚ
  terminal_equity : ℚ
deriving DecidableEq

/-- Default sweep row used with `List.getD`. -/
def row0 : SweepRow := ⟨0, 0, 0, 0, 0, 0, 0, 0, 0⟩

/-- `np.linspace(start, stop, num)`: `num` evenly spaced samples inclusive of
both endpoints (`[start]` when `num = 1`, `[]` when `num = 0`). -/
def linspace (start stop : ℚ) (num : ℕ) : List ℚ :=
  if num = 0 then []
  else if num = 1 then [start]
  else (List.range num).map
    (fun (i : ℕ) => start + (i : ℚ) * (stop - start) / ((num : ℚ) - 1))

namespace AutoSim

open PropertySim

/-- The body of the sweep loop for one sampled percentage: clone the base
configuration with only `down_payment_percent` replaced, run the engine, and
build the result row from the first month's figures plus summary KPIs. -/
def mkRowE (base : PropertySim) (down_payment_percent : ℚ) :
    Except SimError SweepRow := do
  let sim : PropertySim := { base with down_payment_percent := down_payment_percent }
  let (recs, kpis) ← sim.runE
  match recs.head? with
  | none => .error .emptyFrame
  | some r0 =>
    .ok { down_payment_percentage := down_payment_percent
          down_payment := sim.down_payment
          monthly_cash_flow := r0.monthly_cash_flow
          effective_rent := r0.effective_rent
          monthly_expenses := r0.expenses
          monthly_mortgage := r0.mortgage_payment
          initial_coc_percent := kpis.initial_cash_on_cash_percent
          cumulative_cf := kpis.cumulative_cash_flow
          terminal_equity := kpis.terminal_equity }

/-- The sweep loop over the sampled percentages, with the early `break` as
soon as a row with positive monthly cash flow is produced. -/
def sweepLoopE (base : PropertySim) : List ℚ → Except SimError (List SweepRow)
  | [] => .ok []
  | p :: ps => do
    let row ← mkRowE base p
    if 0 < row.monthly_cash_flow then .ok [row]
    else do
      let rest ← sweepLoopE base ps
      .ok (row :: rest)

/-- `AutoSim.down_payment_for_cashflow`: sample `num_simulations` percentages
with `np.linspace(lower_limit, upper_limit, num_simulations)`, run the sweep
loop, then select the first row with positive monthly cash flow as the
break-even pair (both components `None` when there is no such row).  With
zero samples the results list is empty, `pd.DataFrame([])` has no columns,
and the break-even filter `results_df['monthly_cash_flow'] > 0` raises
`KeyError` — an empty-frame failure.  (Negative sample counts are outside
the ℕ model: `np.linspace` itself rejects them.) -/
def down_payment_for_cashflowE (base : PropertySim)
    (upper_limit lower_limit : ℚ) (num_simulations : ℕ) :
    Except SimError (List SweepRow × Option ℚ × Option ℚ) := do
  let down_payment_range := linspace lower_limit upper_limit num_simulations
  let results ← sweepLoopE base down_payment_range
  match results with
  | [] => .error .emptyFrame
  | _ :: _ =>
    match results.find? (fun row => decide (0 < row.monthly_cash_flow)) with
    | some row => .ok (results, some row.down_payment, some row.down_payment_percentage)
    | none => .ok (results, none, none)
end AutoSim

namespace PropertySim

/-!
Closed-form companions of the loop.  `balSeq r P L k` is the loan balance
after `k` payments of the fixed payment `P` under monthly rate `r`, starting
from `L`, following exactly the clamped update of the source; `mmtgSeq` is
the payment the loop charges in month `k` (zeroed once the balance has hit
0); `cumSeq` accumulates the monthly cash flows.
-/
/-- Balance after `k` clamped payments (the mortgage-split lines of `run`). -/
def balSeq (r P L : ℚ) : ℕ → ℚ
  | 0 => L
  | k + 1 =>
    let b := balSeq r P L k
    let interest := b * r
    let principal := clamp_nonnegative (min (P - interest) b)
    clamp_nonnegative (b - principal)

/-- Payment charged in month `k`: the constant `P` until the balance has
reached 0 at the end of some earlier month, then 0. -/
def mmtgSeq (r P L : ℚ) : ℕ → ℚ
  | 0 => P
  | k + 1 => if balSeq r P L (k + 1) = 0 then 0 else P

/-- The value `mortgage_payment_monthly` returns when its divisors are
nonzero. -/
def pmtVal (s : PropertySim) : ℚ :=
  let L := s.loan_amount
  let r := s.monthly_rate
  let n : ℤ := s.amort_years * 12
  if r = 0 then L / (n : ℚ) else L * (r * (1 + r) ^ n) / ((1 + r) ^ n - 1)

/-- Revenue-model guard: the only division of `calculate_monthly_revenue`
is by `avg_stay_length_nights` in the short-term branch. -/
def revOk (s : PropertySim) : Prop :=
  s.rental_type = "short_term" → s.avg_stay_length_nights ≠ 0

instance (s : PropertySim) : Decidable (revOk s) := by
  unfold revOk; infer_instance

/-- The value `calculate_monthly_revenue` returns when it does not divide
by zero. -/
def calcRev (s : PropertySim) (base_rate : ℚ) : ℚ :=
  if s.rental_type = "short_term" then
    (base_rate * (30 * pct_to_dec s.occupancy_percent) +
      s.cleaning_fee_per_stay * (30 * pct_to_dec s.occupancy_percent / s.avg_stay_length_nights)) *
      (1 - pct_to_dec s.platform_fee_percent)
  else
    base_rate * (1 - pct_to_dec s.vacancy_percent)

/-- Initial base rate of the loop (`nightly_rate` or `monthly_rent`). -/
def baseRate0 (s : PropertySim) : ℚ :=
  if s.rental_type = "short_term" then s.nightly_rate else s.monthly_rent

/-- Appreciated property price during month `m` (escalated at each 12-month
boundary). -/
def pvAt (s : PropertySim) (m : ℕ) : ℚ :=
  s.purchase_price * (1 + pct_to_dec s.appreciation_percent_per_year) ^ (m / 12)

/-- Escalated base rate during month `m`. -/
def brAt (s : PropertySim) (m : ℕ) : ℚ :=
  baseRate0 s * (1 + pct_to_dec s.rent_growth_percent_per_year) ^ (m / 12)

/-- Effective rent recorded in month `m`. -/
def effAt (s : PropertySim) (m : ℕ) : ℚ := calcRev s (brAt s m)

/-- Expenses recorded in month `m`. -/
def expAt (s : PropertySim) (m : ℕ) : ℚ :=
  pvAt s m * pct_to_dec s.tax_percent_of_price_per_year / 12 +
  pvAt s m * pct_to_dec s.insurance_percent_of_price_per_year / 12 +
  pvAt s m * pct_to_dec s.maintenance_percent_of_price_per_year / 12 +
  s.other_costs_monthly

/-- Monthly cash flow of month `m` under the constant payment `P`. -/
def cfAt (s : PropertySim) (P : ℚ) (m : ℕ) : ℚ :=
  effAt s m - expAt s m - mmtgSeq s.monthly_rate P s.loan_amount m

/-- Cumulative cash flow after `k` months. -/
def cumSeq (s : PropertySim) (P : ℚ) : ℕ → ℚ
  | 0 => 0
  | k + 1 => cumSeq s P k + cfAt s P k

/-- The record the loop appends in month `m`. -/
def idealRecord (s : PropertySim) (P : ℚ) (m : ℕ) : MonthRecord :=
  let r := s.monthly_rate
  let L := s.loan_amount
  { month_index := m
    effective_rent := effAt s m
    expenses := expAt s m
    mortgage_payment := mmtgSeq r P L m
    interest := balSeq r P L m * r
    principal := balSeq r P L m - balSeq r P L (m + 1)
    balance := balSeq r P L (m + 1)
    monthly_cash_flow := cfAt s P m
    cumulative_cash_flow := cumSeq s P (m + 1)
    property_value := pvAt s m }

/-- The records of months `m, m+1, …, m+k-1`. -/
def idealList (s : PropertySim) (P : ℚ) (m : ℕ) : ℕ → List MonthRecord
  | 0 => []
  | k + 1 => idealRecord s P m :: idealList s P (m + 1) k

/-- The loop state after `k` completed months. -/
def idealState (s : PropertySim) (P : ℚ) (k : ℕ) : LoopState :=
  let r := s.monthly_rate
  let L := s.loan_amount
  let e := (k - 1) / 12
  let cp := s.purchase_price * (1 + pct_to_dec s.appreciation_percent_per_year) ^ e
  { base_rate := baseRate0 s * (1 + pct_to_dec s.rent_growth_percent_per_year) ^ e
    current_price := cp
    monthly_tax := cp * pct_to_dec s.tax_percent_of_price_per_year / 12
    monthly_ins := cp * pct_to_dec s.insurance_percent_of_price_per_year / 12
    monthly_maint := cp * pct_to_dec s.maintenance_percent_of_price_per_year / 12
    balance := balSeq r P L k
    mmtg := mmtgSeq r P L k
    cumulative_cf := cumSeq s P k
    cumulative_principal := L - balSeq r P L k }

/-- Principal paid in month `k` (before the subtraction from the balance),
when the constant payment `P` is still being charged. -/
def prinAt (r P L : ℚ) (k : ℕ) : ℚ :=
  clamp_nonnegative (min (P - balSeq r P L k * r) (balSeq r P L k))

/-- One payment step as a function of the pre-payment balance. -/
def balStep (r P b : ℚ) : ℚ :=
  clamp_nonnegative (b - clamp_nonnegative (min (P - b * r) b))

/-- Geometric sum `1 + (1+r) + … + (1+r)^(k-1)`. -/
def gsum (r : ℚ) : ℕ → ℚ
  | 0 => 0
  | k + 1 => 1 + (1 + r) * gsum r k

/-- Closed-form (unclamped) balance after `k` payments. -/
def cfSeq (r P L : ℚ) (k : ℕ) : ℚ := L * (1 + r) ^ k - P * gsum r k

/-- Modelled on the specification text of the payment formula: `L·r·(1+r)^n
/ ((1+r)^n − 1)` with `L = max(0, purchase_price −
purchase_price·down_payment_percent/100)`, `r =
annual_interest_percent/100/12`, `n = amort_years×12`, and `L/n` when
`r = 0`.  Stated in the spec's own words, to be compared with the code. -/
def specPayment (s : PropertySim) : ℚ :=
  let L := max 0 (s.purchase_price - s.purchase_price * s.down_payment_percent / 100)
  let r := s.annual_interest_percent / 100 / 12
  let n : ℤ := s.amort_years * 12
  if r = 0 then L / (n : ℚ)
  else L * r * (1 + r) ^ n / ((1 + r) ^ n - 1)
end PropertySim


deriving instance DecidableEq for Except

namespace PropertySim

/-- The value `initial_cash_on_cash_percent` returns when it succeeds. -/
def cocVal (s : PropertySim) : ℚ :=
  let eff_rent_year1 :=
    if s.rental_type = "short_term" then calcRev s s.nightly_rate * 12
    else calcRev s s.monthly_rent * 12
  let expenses_year1 := s.tax_yearly + s.insurance_yearly +
    s.maintenance_yearly + s.other_costs_monthly * 12
  (eff_rent_year1 - expenses_year1) / s.total_upfront * 100
end PropertySim


/-- A reference long-term configuration used for concrete evaluations
(5% interest-free variants derive from it). -/
def cfgMain : PropertySim :=
  { purchase_price := 100000
    down_payment_percent := 20
    annual_interest_percent := 6
    amort_years := 1
    rental_type := "long_term"
    monthly_rent := 1000
    years := 1 }

/-- Valid configuration with a 100% down payment (loan amount 0). -/
def cfgFullDP : PropertySim :=
  { cfgMain with down_payment_percent := 100, annual_interest_percent := 0 }

/-- Configuration whose `rental_type` is not one of the two recognized
values. -/
def cfgOddRental : PropertySim :=
  { cfgMain with rental_type := "studio_hotel", annual_interest_percent := 0 }

/-- Invariant-satisfying configuration with zero down payment and zero
closing costs (`total_upfront = 0`). -/
def cfgZeroUpfront : PropertySim :=
  { cfgMain with
    down_payment_percent := 0
    closing_costs_percent_of_price := 0
    annual_interest_percent := 0 }

/-- Invariant-satisfying short-term configuration with
`avg_stay_length_nights = 0`. -/
def cfgZeroStay : PropertySim :=
  { cfgMain with
    rental_type := "short_term"
    nightly_rate := 100
    avg_stay_length_nights := 0 }

/-- Zero-rate configuration whose loan is paid off at month 11 of a
24-month horizon. -/
def cfgPayoff : PropertySim :=
  { cfgMain with
    down_payment_percent := 0
    annual_interest_percent := 0
    years := 2 }

/-- Zero-rate base configuration for sweeps. -/
def cfgSweep : PropertySim :=
  { cfgMain with annual_interest_percent := 0 }

/-- Zero-rate configuration with a negative amortization term: accepted by
the code, producing a negative payment and a completed run. -/
def cfgNegAmort : PropertySim :=
  { cfgMain with
    amort_years := -1
    annual_interest_percent := 0 }

/-- Projection of a successful simulation used to state concrete facts. -/
def simResult (s : PropertySim) : LoopState × List MonthRecord :=
  match s.simulateE with
  | .ok p => p
  | .error _ => (⟨0, 0, 0, 0, 0, 0, 0, 0, 0⟩, [])

/-- Projection of a successful engine run used to state concrete facts. -/
def runResult (s : PropertySim) : List MonthRecord × SummaryMetrics :=
  match s.runE with
  | .ok p => p
  | .error _ => ([], ⟨0, 0, 0, 0, 0, 0, 0, none⟩)

namespace AutoSim

open PropertySim

/-- The sweep row built for percentage `p`: the reference configuration
with only `down_payment_percent` replaced is run, and the row carries the
first month's cash flow, rent, expenses and payment plus three summary
KPIs. -/
def rowSpec (base : PropertySim) (p : ℚ) (row : SweepRow) : Prop :=
  ∃ recs sm r1 rest,
    PropertySim.runE { base with down_payment_percent := p } = .ok (recs, sm) ∧
    recs = r1 :: rest ∧
    row = { down_payment_percentage := p
            down_payment := PropertySim.down_payment { base with down_payment_percent := p }
            monthly_cash_flow := r1.monthly_cash_flow
            effective_rent := r1.effective_rent
            monthly_expenses := r1.expenses
            monthly_mortgage := r1.mortgage_payment
            initial_coc_percent := sm.initial_cash_on_cash_percent
            cumulative_cf := sm.cumulative_cash_flow
            terminal_equity := sm.terminal_equity }
end AutoSim


/-- Projection of a successful sweep call used to state concrete facts. -/
def sweepResult (base : PropertySim) (upper_limit lower_limit : ℚ) (num : ℕ) :
    List SweepRow × Option ℚ × Option ℚ :=
  match AutoSim.down_payment_for_cashflowE base upper_limit lower_limit num with
  | .ok o => o
  | .error _ => ([], none, none)


namespace PropertySim

theorem clamp_nonnegative_nonneg (x : ℚ) : 0 ≤ clamp_nonnegative x :=
  le_max_left 0 x

theorem clamp_nonnegative_of_nonneg {x : ℚ} (h : 0 ≤ x) :
    clamp_nonnegative x = x := max_eq_right h

theorem balSeq_succ_def (r P L : ℚ) (k : ℕ) :
    balSeq r P L (k + 1) =
      clamp_nonnegative (balSeq r P L k - prinAt r P L k) := rfl

theorem balSeq_nonneg (r P L : ℚ) (hL : 0 ≤ L) : ∀ k, 0 ≤ balSeq r P L k
  | 0 => hL
  | k + 1 => clamp_nonnegative_nonneg _

theorem prinAt_nonneg (r P L : ℚ) (k : ℕ) : 0 ≤ prinAt r P L k :=
  clamp_nonnegative_nonneg _

theorem prinAt_le_bal (r P L : ℚ) (hL : 0 ≤ L) (k : ℕ) :
    prinAt r P L k ≤ balSeq r P L k :=
  max_le (balSeq_nonneg r P L hL k) (min_le_right _ _)

theorem balSeq_succ (r P L : ℚ) (hL : 0 ≤ L) (k : ℕ) :
    balSeq r P L (k + 1) = balSeq r P L k - prinAt r P L k := by
  rw [balSeq_succ_def]
  exact clamp_nonnegative_of_nonneg (sub_nonneg.2 (prinAt_le_bal r P L hL k))

theorem balSeq_succ_le (r P L : ℚ) (hL : 0 ≤ L) (k : ℕ) :
    balSeq r P L (k + 1) ≤ balSeq r P L k := by
  rw [balSeq_succ r P L hL k]
  exact sub_le_self _ (prinAt_nonneg r P L k)

theorem balSeq_antitone (r P L : ℚ) (hL : 0 ≤ L) {j k : ℕ} (h : j ≤ k) :
    balSeq r P L k ≤ balSeq r P L j := by
  induction k with
  | zero => simp_all
  | succ k ih =>
    rcases Nat.lt_or_ge j (k + 1) with hj | hj
    · exact le_trans (balSeq_succ_le r P L hL k) (ih (Nat.lt_succ_iff.mp hj))
    · have : j = k + 1 := le_antisymm h hj
      subst this; rfl

theorem balSeq_zero_absorb (r P L : ℚ) (hL : 0 ≤ L) {j k : ℕ}
    (h : j ≤ k) (hz : balSeq r P L j = 0) : balSeq r P L k = 0 :=
  le_antisymm (hz ▸ balSeq_antitone r P L hL h) (balSeq_nonneg r P L hL k)

theorem mmtgSeq_of_ne_zero (r P L : ℚ) {k : ℕ}
    (h : k = 0 ∨ balSeq r P L k ≠ 0) : mmtgSeq r P L k = P := by
  cases k with
  | zero => rfl
  | succ k =>
    rcases h with h | h
    · exact absurd h (Nat.succ_ne_zero k)
    · simp [mmtgSeq, h]

theorem mmtgSeq_of_zero (r P L : ℚ) {k : ℕ} (hk : k ≠ 0)
    (h : balSeq r P L k = 0) : mmtgSeq r P L k = 0 := by
  cases k with
  | zero => exact absurd rfl hk
  | succ k => simp [mmtgSeq, h]

theorem balSeq_succ_eq_balStep (r P L : ℚ) (k : ℕ) :
    balSeq r P L (k + 1) = balStep r P (balSeq r P L k) := rfl

theorem gsum_succ (r : ℚ) (k : ℕ) : gsum r (k + 1) = 1 + (1 + r) * gsum r k := rfl

theorem cfSeq_succ (r P L : ℚ) (k : ℕ) :
    cfSeq r P L (k + 1) = (1 + r) * cfSeq r P L k - P := by
  unfold cfSeq
  rw [gsum_succ, pow_succ]
  ring

theorem balStep_max (r P : ℚ) (hr : 0 ≤ r) (hP : 0 ≤ P) {cf L : ℚ}
    (hcfL : cf ≤ L) (hrP : r * L ≤ P) :
    balStep r P (max 0 cf) = max 0 ((1 + r) * cf - P) := by
  rcases le_or_lt cf 0 with hcf | hcf
  · have h1 : max 0 cf = 0 := max_eq_left hcf
    have h2 : min (P - 0 * r) (0 : ℚ) = 0 := by
      rw [zero_mul, sub_zero]
      exact min_eq_right hP
    have h3 : (1 + r) * cf - P ≤ 0 := by nlinarith
    rw [h1, balStep, h2, clamp_nonnegative_of_nonneg le_rfl, sub_zero,
      clamp_nonnegative_of_nonneg le_rfl, max_eq_left h3]
  · have h1 : max 0 cf = cf := max_eq_right hcf.le
    have hint : cf * r ≤ P := by nlinarith
    rw [h1, balStep]
    rcases le_or_lt (P - cf * r) cf with hcase | hcase
    · have hmin : min (P - cf * r) cf = P - cf * r := min_eq_left hcase
      have hpr : 0 ≤ P - cf * r := sub_nonneg.2 hint
      have hpos : 0 ≤ (1 + r) * cf - P := by nlinarith
      rw [hmin, clamp_nonnegative_of_nonneg hpr, max_eq_right hpos]
      rw [clamp_nonnegative_of_nonneg (by linarith)]
      ring
    · have hmin : min (P - cf * r) cf = cf := min_eq_right hcase.le
      have hneg : (1 + r) * cf - P ≤ 0 := by nlinarith
      rw [hmin, clamp_nonnegative_of_nonneg hcf.le, sub_self,
        clamp_nonnegative_of_nonneg le_rfl, max_eq_left hneg]

theorem balSeq_eq_max_cfSeq (r P L : ℚ) (hL : 0 ≤ L) (hr : 0 ≤ r)
    (hP : 0 ≤ P) (hrP : r * L ≤ P) :
    ∀ k, balSeq r P L k = max 0 (cfSeq r P L k) ∧ cfSeq r P L k ≤ L := by
  intro k
  induction k with
  | zero =>
    constructor
    · show L = max 0 (L * (1 + r) ^ 0 - P * gsum r 0)
      simp [gsum, max_eq_right hL]
    · show L * (1 + r) ^ 0 - P * gsum r 0 ≤ L
      simp [gsum]
  | succ k ih =>
    obtain ⟨hb, hcf⟩ := ih
    have hstep : balSeq r P L (k + 1) = max 0 ((1 + r) * cfSeq r P L k - P) := by
      rw [balSeq_succ_eq_balStep, hb, balStep_max r P hr hP hcf hrP]
    constructor
    · rw [hstep, cfSeq_succ]
    · rw [cfSeq_succ]
      nlinarith [mul_le_mul_of_nonneg_left hcf hr]

theorem loan_amount_nonneg (s : PropertySim) : 0 ≤ s.loan_amount :=
  clamp_nonnegative_nonneg _

theorem monthly_rate_nonneg (s : PropertySim)
    (hr : 0 ≤ s.annual_interest_percent) : 0 ≤ s.monthly_rate := by
  unfold monthly_rate pct_to_dec
  positivity

theorem amort_toNat_cast (s : PropertySim) (hn : 1 ≤ s.amort_years) :
    (((s.amort_years * 12).toNat : ℤ)) = s.amort_years * 12 :=
  Int.toNat_of_nonneg (by omega)

theorem amort_zpow_eq (s : PropertySim) (hn : 1 ≤ s.amort_years) (x : ℚ) :
    x ^ (s.amort_years * 12) = x ^ (s.amort_years * 12).toNat := by
  conv_lhs => rw [← s.amort_toNat_cast hn]
  exact zpow_natCast x _

theorem amort_cast_ne_zero (s : PropertySim) (hn : 1 ≤ s.amort_years) :
    ((s.amort_years * 12 : ℤ) : ℚ) ≠ 0 := by
  have h : (s.amort_years * 12 : ℤ) ≠ 0 := by omega
  exact_mod_cast h

theorem amort_cast_pos (s : PropertySim) (hn : 1 ≤ s.amort_years) :
    (0 : ℚ) < ((s.amort_years * 12 : ℤ) : ℚ) := by
  have h : (0 : ℤ) < s.amort_years * 12 := by omega
  exact_mod_cast h

theorem pow_denom_pos (s : PropertySim) (hn : 1 ≤ s.amort_years)
    (hr : 0 ≤ s.annual_interest_percent) (hne : s.monthly_rate ≠ 0) :
    0 < (1 + s.monthly_rate) ^ (s.amort_years * 12) - 1 := by
  have hrpos : 0 < s.monthly_rate := lt_of_le_of_ne (s.monthly_rate_nonneg hr) (Ne.symm hne)
  have h1 : (1 : ℚ) < 1 + s.monthly_rate := by linarith
  have hn0 : (s.amort_years * 12).toNat ≠ 0 := by omega
  rw [s.amort_zpow_eq hn]
  have := one_lt_pow h1 hn0
  linarith

theorem no_neg_base_zero (s : PropertySim) (hr : 0 ≤ s.annual_interest_percent) :
    ¬((1 + s.monthly_rate : ℚ) = 0 ∧ (s.amort_years * 12 : ℤ) < 0) := by
  rintro ⟨h1, _⟩
  have := s.monthly_rate_nonneg hr
  linarith

theorem mortgage_payment_monthlyE_ok (s : PropertySim)
    (hn : 1 ≤ s.amort_years) (hr : 0 ≤ s.annual_interest_percent) :
    s.mortgage_payment_monthlyE = .ok (pmtVal s) := by
  unfold mortgage_payment_monthlyE pmtVal
  by_cases h0 : s.monthly_rate = 0
  · rw [if_pos h0, if_pos h0, if_neg (s.amort_cast_ne_zero hn)]
  · have hD := s.pow_denom_pos hn hr h0
    rw [if_neg h0, if_neg h0, if_neg (s.no_neg_base_zero hr), if_neg (ne_of_gt hD)]

theorem pmtVal_nonneg (s : PropertySim) (hn : 1 ≤ s.amort_years)
    (hr : 0 ≤ s.annual_interest_percent) : 0 ≤ pmtVal s := by
  unfold pmtVal
  by_cases h0 : s.monthly_rate = 0
  · simp only [h0, if_pos rfl]
    exact div_nonneg s.loan_amount_nonneg (s.amort_cast_pos hn).le
  · have hD := s.pow_denom_pos hn hr h0
    have hrpos : 0 < s.monthly_rate :=
      lt_of_le_of_ne (s.monthly_rate_nonneg hr) (Ne.symm h0)
    simp only [if_neg h0]
    rw [s.amort_zpow_eq hn]
    rw [s.amort_zpow_eq hn] at hD
    have hnum : 0 ≤ s.loan_amount *
        (s.monthly_rate * (1 + s.monthly_rate) ^ (s.amort_years * 12).toNat) := by
      have := s.loan_amount_nonneg
      positivity
    exact div_nonneg hnum hD.le

theorem rate_mul_loan_le_pmtVal (s : PropertySim) (hn : 1 ≤ s.amort_years)
    (hr : 0 ≤ s.annual_interest_percent) :
    s.monthly_rate * s.loan_amount ≤ pmtVal s := by
  unfold pmtVal
  by_cases h0 : s.monthly_rate = 0
  · simp only [h0, if_pos rfl, zero_mul]
    exact div_nonneg s.loan_amount_nonneg (s.amort_cast_pos hn).le
  · have hD := s.pow_denom_pos hn hr h0
    have hrpos : 0 < s.monthly_rate :=
      lt_of_le_of_ne (s.monthly_rate_nonneg hr) (Ne.symm h0)
    have hLnn := s.loan_amount_nonneg
    simp only [if_neg h0]
    rw [s.amort_zpow_eq hn]
    rw [s.amort_zpow_eq hn] at hD
    rw [le_div_iff hD]
    nlinarith [mul_nonneg hrpos.le hLnn]

theorem pmtVal_pos (s : PropertySim) (hn : 1 ≤ s.amort_years)
    (hr : 0 ≤ s.annual_interest_percent) (hL : 0 < s.loan_amount) :
    0 < pmtVal s := by
  unfold pmtVal
  by_cases h0 : s.monthly_rate = 0
  · simp only [h0, if_pos rfl]
    exact div_pos hL (s.amort_cast_pos hn)
  · have hD := s.pow_denom_pos hn hr h0
    have hrpos : 0 < s.monthly_rate :=
      lt_of_le_of_ne (s.monthly_rate_nonneg hr) (Ne.symm h0)
    simp only [if_neg h0]
    rw [s.amort_zpow_eq hn]
    rw [s.amort_zpow_eq hn] at hD
    have hpow : (0:ℚ) < (1 + s.monthly_rate) ^ (s.amort_years * 12).toNat := by positivity
    exact div_pos (by positivity) hD

theorem gsum_rate_zero : ∀ k : ℕ, gsum 0 k = (k : ℚ)
  | 0 => rfl
  | k + 1 => by
    rw [gsum_succ, gsum_rate_zero k]
    push_cast
    ring

theorem gsum_of_rate_ne_zero (r : ℚ) (hr : r ≠ 0) :
    ∀ k : ℕ, gsum r k = ((1 + r) ^ k - 1) / r
  | 0 => by simp [gsum]
  | k + 1 => by
    rw [gsum_succ, gsum_of_rate_ne_zero r hr k, pow_succ]
    field_simp
    ring

/-- With the actual fixed payment, the closed-form balance vanishes exactly
after `amort_years * 12` payments. -/
theorem cfSeq_pmtVal_zero (s : PropertySim) (hn : 1 ≤ s.amort_years)
    (hr : 0 ≤ s.annual_interest_percent) :
    cfSeq s.monthly_rate (pmtVal s) s.loan_amount (s.amort_years * 12).toNat = 0 := by
  unfold cfSeq pmtVal
  by_cases h0 : s.monthly_rate = 0
  · rw [if_pos h0, h0, gsum_rate_zero]
    have hcast : (((s.amort_years * 12).toNat : ℕ) : ℚ)
        = ((s.amort_years * 12 : ℤ) : ℚ) := by
      exact_mod_cast s.amort_toNat_cast hn
    rw [hcast, div_mul_cancel₀ _ (s.amort_cast_ne_zero hn)]
    norm_num
  · have hD := s.pow_denom_pos hn hr h0
    rw [if_neg h0, gsum_of_rate_ne_zero _ h0, s.amort_zpow_eq hn]
    rw [s.amort_zpow_eq hn] at hD
    field_simp
    ring

/-- The clamped loop balance reaches exactly 0 after `amort_years * 12`
payments of the payment the code computes. -/
theorem balSeq_payoff (s : PropertySim) (hn : 1 ≤ s.amort_years)
    (hr : 0 ≤ s.annual_interest_percent) :
    balSeq s.monthly_rate (pmtVal s) s.loan_amount (s.amort_years * 12).toNat = 0 := by
  have h := balSeq_eq_max_cfSeq s.monthly_rate (pmtVal s) s.loan_amount
    s.loan_amount_nonneg (s.monthly_rate_nonneg hr) (s.pmtVal_nonneg hn hr)
    (s.rate_mul_loan_le_pmtVal hn hr) (s.amort_years * 12).toNat
  rw [h.1, cfSeq_pmtVal_zero s hn hr]
  simp

/-- The principal the loop computes (with the possibly-zeroed payment
`mmtgSeq`) is exactly the drop of the clamped balance. -/
theorem prin_actual_eq (r P L : ℚ) (hL : 0 ≤ L) (hP : 0 ≤ P) (k : ℕ) :
    clamp_nonnegative (min (mmtgSeq r P L k - balSeq r P L k * r) (balSeq r P L k))
      = balSeq r P L k - balSeq r P L (k + 1) := by
  by_cases hz : k ≠ 0 ∧ balSeq r P L k = 0
  · obtain ⟨hk, hbz⟩ := hz
    have hm : mmtgSeq r P L k = 0 := mmtgSeq_of_zero r P L hk hbz
    have hnext : balSeq r P L (k + 1) = 0 :=
      balSeq_zero_absorb r P L hL (Nat.le_succ k) hbz
    rw [hm, hbz, hnext, zero_mul, sub_zero, min_self,
      clamp_nonnegative_of_nonneg le_rfl]
  · have hm : mmtgSeq r P L k = P := by
      apply mmtgSeq_of_ne_zero
      by_cases hk : k = 0
      · exact Or.inl hk
      · right
        intro hbz
        exact hz ⟨hk, hbz⟩
    rw [hm]
    show prinAt r P L k = _
    rw [balSeq_succ r P L hL k]
    ring

/-- The clamped balance update the loop computes agrees with `balSeq`. -/
theorem bal_actual_eq (r P L : ℚ) (hL : 0 ≤ L) (hP : 0 ≤ P) (k : ℕ) :
    clamp_nonnegative (balSeq r P L k -
      clamp_nonnegative (min (mmtgSeq r P L k - balSeq r P L k * r) (balSeq r P L k)))
      = balSeq r P L (k + 1) := by
  rw [prin_actual_eq r P L hL hP k]
  have h1 : balSeq r P L k - (balSeq r P L k - balSeq r P L (k + 1))
      = balSeq r P L (k + 1) := by ring
  rw [h1]
  exact clamp_nonnegative_of_nonneg (balSeq_nonneg r P L hL (k + 1))

/-- The payment-zeroing line at the end of the loop body realises
`mmtgSeq` at the next month. -/
theorem mmtg_step_eq (r P L : ℚ) (hL : 0 ≤ L) (k : ℕ) :
    (if balSeq r P L (k + 1) ≤ 0 then 0 else mmtgSeq r P L k)
      = mmtgSeq r P L (k + 1) := by
  rcases eq_or_lt_of_le (balSeq_nonneg r P L hL (k + 1)) with hz | hpos
  · rw [if_pos (le_of_eq hz.symm),
      mmtgSeq_of_zero r P L (Nat.succ_ne_zero k) hz.symm]
  · rw [if_neg (not_le.2 hpos)]
    have hkP : mmtgSeq r P L k = P := by
      apply mmtgSeq_of_ne_zero
      cases k with
      | zero => exact Or.inl rfl
      | succ k' =>
        right
        intro h
        have h2 : balSeq r P L (k' + 2) = 0 :=
          balSeq_zero_absorb r P L hL (Nat.le_succ _) h
        rw [h2] at hpos
        exact lt_irrefl 0 hpos
    have h3 : mmtgSeq r P L (k + 1) = if balSeq r P L (k + 1) = 0 then 0 else P := rfl
    rw [hkP, h3, if_neg (ne_of_gt hpos)]

theorem bump_exp {m : ℕ} (h : m > 0 ∧ m % 12 = 0) : (m - 1) / 12 + 1 = m / 12 := by
  omega

theorem no_bump_exp {m : ℕ} (h : ¬(m > 0 ∧ m % 12 = 0)) : (m - 1) / 12 = m / 12 := by
  omega

theorem calculate_monthly_revenueE_ok (s : PropertySim) (hrev : revOk s) (b : ℚ) :
    calculate_monthly_revenueE s b = .ok (calcRev s b) := by
  unfold calculate_monthly_revenueE calcRev
  by_cases hst : s.rental_type = "short_term"
  · rw [if_pos hst, if_pos hst, if_neg (hrev hst)]
  · rw [if_neg hst, if_neg hst]

theorem exbind_ok {ε α β : Type} (a : α) (f : α → Except ε β) :
    (Except.ok a >>= f : Except ε β) = f a := rfl

theorem exbind_err {ε α β : Type} (e : ε) (f : α → Except ε β) :
    (Except.error e >>= f : Except ε β) = .error e := rfl

theorem cumSeq_succ (s : PropertySim) (P : ℚ) (k : ℕ) :
    cumSeq s P (k + 1) = cumSeq s P k + cfAt s P k := rfl

theorem bal_actual_eq' (r P L : ℚ) (hL : 0 ≤ L) (k : ℕ) :
    clamp_nonnegative (balSeq r P L k - (balSeq r P L k - balSeq r P L (k + 1)))
      = balSeq r P L (k + 1) := by
  have h1 : balSeq r P L k - (balSeq r P L k - balSeq r P L (k + 1))
      = balSeq r P L (k + 1) := by ring
  rw [h1]
  exact clamp_nonnegative_of_nonneg (balSeq_nonneg r P L hL (k + 1))

theorem stepE_ideal (s : PropertySim) (P : ℚ) (hrev : revOk s) (hP : 0 ≤ P) (m : ℕ) :
    stepE s (idealState s P m) m = .ok (idealState s P (m + 1), idealRecord s P m) := by
  have hL := s.loan_amount_nonneg
  by_cases hb : m > 0 ∧ m % 12 = 0
  · have he : (m - 1) / 12 + 1 = m / 12 := bump_exp hb
    have hbr : s.baseRate0 * (1 + pct_to_dec s.rent_growth_percent_per_year) ^ ((m - 1) / 12) *
        (1 + pct_to_dec s.rent_growth_percent_per_year)
        = s.baseRate0 * (1 + pct_to_dec s.rent_growth_percent_per_year) ^ (m / 12) := by
      rw [mul_assoc, ← pow_succ, he]
    have hpv : s.purchase_price * (1 + pct_to_dec s.appreciation_percent_per_year) ^ ((m - 1) / 12) *
        (1 + pct_to_dec s.appreciation_percent_per_year)
        = s.purchase_price * (1 + pct_to_dec s.appreciation_percent_per_year) ^ (m / 12) := by
      rw [mul_assoc, ← pow_succ, he]
    simp only [stepE, if_pos hb, idealState, idealRecord, effAt, expAt, brAt, pvAt,
      calculate_monthly_revenueE_ok s hrev, exbind_ok, Nat.add_sub_cancel, hbr, hpv,
      prin_actual_eq s.monthly_rate P s.loan_amount hL hP,
      bal_actual_eq' s.monthly_rate P s.loan_amount hL,
      mmtg_step_eq s.monthly_rate P s.loan_amount hL,
      cumSeq_succ, cfAt, effAt, expAt, brAt, pvAt]
    simp only [Except.ok.injEq, Prod.mk.injEq, LoopState.mk.injEq, MonthRecord.mk.injEq]
    and_intros <;>
      first
        | rfl
        | trivial
        | ring
  · have he : (m - 1) / 12 = m / 12 := no_bump_exp hb
    simp only [stepE, if_neg hb, idealState, idealRecord, effAt, expAt, brAt, pvAt,
      calculate_monthly_revenueE_ok s hrev, exbind_ok, Nat.add_sub_cancel, he,
      prin_actual_eq s.monthly_rate P s.loan_amount hL hP,
      bal_actual_eq' s.monthly_rate P s.loan_amount hL,
      mmtg_step_eq s.monthly_rate P s.loan_amount hL,
      cumSeq_succ, cfAt, effAt, expAt, brAt, pvAt]
    simp only [Except.ok.injEq, Prod.mk.injEq, LoopState.mk.injEq, MonthRecord.mk.injEq]
    and_intros <;>
      first
        | rfl
        | trivial
        | ring

theorem idealList_length (s : PropertySim) (P : ℚ) :
    ∀ k m, (idealList s P m k).length = k
  | 0, _ => rfl
  | k + 1, m => by
    show (idealList s P (m + 1) k).length + 1 = k + 1
    rw [idealList_length s P k (m + 1)]

theorem idealList_getD (s : PropertySim) (P : ℚ) :
    ∀ k m i, i < k → (idealList s P m k).getD i rec0 = idealRecord s P (m + i)
  | 0, _, i, hi => absurd hi (Nat.not_lt_zero i)
  | k + 1, m, 0, _ => by simp [idealList]
  | k + 1, m, i + 1, hi => by
    show (idealList s P (m + 1) k).getD i rec0 = _
    rw [idealList_getD s P k (m + 1) i (Nat.lt_of_succ_lt_succ hi)]
    congr 1
    omega

/-- The loop of `run`, started from the ideal state at month `m`, produces
exactly the ideal records and ends in the ideal state. -/
theorem runMonthsE_ideal (s : PropertySim) (P : ℚ) (hrev : revOk s) (hP : 0 ≤ P) :
    ∀ k m, runMonthsE s (idealState s P m) m k
      = .ok (idealState s P (m + k), idealList s P m k)
  | 0, m => by simp [runMonthsE, idealList]
  | k + 1, m => by
    have harith : m + 1 + k = m + (k + 1) := by omega
    simp only [runMonthsE, stepE_ideal s P hrev hP m, exbind_ok,
      runMonthsE_ideal s P hrev hP k (m + 1), harith]
    rfl

/-- Master correctness theorem for the time-series part of `run`: under the
revenue guard and a successfully computed payment, the simulation succeeds
and every part of its output is given in closed form. -/
theorem simulateE_ideal (s : PropertySim) (P : ℚ) (hrev : revOk s)
    (hP : 0 ≤ P) (hpay : s.mortgage_payment_monthlyE = .ok P) :
    s.simulateE = .ok (idealState s P s.total_months,
      idealList s P 0 s.total_months) := by
  unfold simulateE
  rw [hpay, exbind_ok]
  have hst0 :
      ({ base_rate := if s.rental_type = "short_term" then s.nightly_rate else s.monthly_rent
         current_price := s.purchase_price
         monthly_tax := s.tax_yearly / 12
         monthly_ins := s.insurance_yearly / 12
         monthly_maint := s.maintenance_yearly / 12
         balance := s.loan_amount
         mmtg := P
         cumulative_cf := 0
         cumulative_principal := 0 } : LoopState) = idealState s P 0 := by
    simp only [idealState, baseRate0, tax_yearly, insurance_yearly, maintenance_yearly,
      LoopState.mk.injEq]
    and_intros <;> simp [mmtgSeq, cumSeq, balSeq]
  rw [hst0]
  have := runMonthsE_ideal s P hrev hP s.total_months 0
  rw [Nat.zero_add] at this
  exact this

/-- Extraction of the master theorem at a given successful run. -/
theorem simulateE_recs (s : PropertySim) (hn : 1 ≤ s.amort_years)
    (hr : 0 ≤ s.annual_interest_percent) (hrev : revOk s)
    {st : LoopState} {recs : List MonthRecord}
    (hrun : s.simulateE = .ok (st, recs)) :
    st = idealState s (pmtVal s) s.total_months ∧
    recs = idealList s (pmtVal s) 0 s.total_months := by
  have h := simulateE_ideal s (pmtVal s) hrev (s.pmtVal_nonneg hn hr)
    (s.mortgage_payment_monthlyE_ok hn hr)
  rw [hrun] at h
  injection h with h
  injection h with h1 h2
  exact ⟨h1, h2⟩

/-- Every record of a successful run is the ideal record of its month. -/
theorem recs_formula (s : PropertySim) (hn : 1 ≤ s.amort_years)
    (hr : 0 ≤ s.annual_interest_percent) (hrev : revOk s)
    {st : LoopState} {recs : List MonthRecord}
    (hrun : s.simulateE = .ok (st, recs)) :
    recs.length = s.years * 12 ∧
    ∀ i, i < recs.length → recs.getD i rec0 = idealRecord s (pmtVal s) i := by
  obtain ⟨hst, hrecs⟩ := simulateE_recs s hn hr hrev hrun
  subst hrecs
  refine ⟨by simp [idealList_length, total_months], ?_⟩
  intro i hi
  rw [idealList_length] at hi
  have h := idealList_getD s (pmtVal s) s.total_months 0 i hi
  rw [Nat.zero_add] at h
  exact h

theorem pmtVal_of_loan_zero (s : PropertySim) (h : s.loan_amount = 0) :
    pmtVal s = 0 := by
  unfold pmtVal
  rw [h]
  by_cases h0 : s.monthly_rate = 0
  · rw [if_pos h0, zero_div]
  · rw [if_neg h0, zero_mul, zero_div]

theorem specPayment_eq_pmtVal (s : PropertySim) : specPayment s = pmtVal s := by
  unfold specPayment pmtVal
  have hL : max 0 (s.purchase_price - s.purchase_price * s.down_payment_percent / 100)
      = s.loan_amount := by
    unfold loan_amount down_payment clamp_nonnegative pct_to_dec
    congr 1
    ring
  have hrr : s.annual_interest_percent / 100 / 12 = s.monthly_rate := rfl
  rw [hL, hrr]
  by_cases h0 : s.monthly_rate = 0
  · rw [if_pos h0, if_pos h0]
  · rw [if_neg h0, if_neg h0]
    ring

/-- C1: for every valid configuration, the payment the engine computes at
simulation start is exactly the spec's formula evaluated at the initial
loan amount `max(0, purchase_price − purchase_price·dp/100)` (with `L/n`
in the zero-rate case), and that one value is the payment recorded in
every month in which the loan is still outstanding (positive balance
entering the month). -/
theorem C1_payment_formula (s : PropertySim) (hn : 1 ≤ s.amort_years)
    (hr : 0 ≤ s.annual_interest_percent) (hrev : revOk s)
    (st : LoopState) (recs : List MonthRecord)
    (hrun : s.simulateE = .ok (st, recs)) :
    s.mortgage_payment_monthlyE = .ok (specPayment s) ∧
    ∀ i, i < recs.length → (i = 0 ∨ 0 < (recs.getD (i - 1) rec0).balance) →
      (recs.getD i rec0).mortgage_payment = specPayment s := by
  obtain ⟨hlen, hget⟩ := recs_formula s hn hr hrev hrun
  rw [specPayment_eq_pmtVal]
  refine ⟨s.mortgage_payment_monthlyE_ok hn hr, ?_⟩
  intro i hi halive
  rw [hget i hi]
  show mmtgSeq s.monthly_rate (pmtVal s) s.loan_amount i = pmtVal s
  apply mmtgSeq_of_ne_zero
  cases i with
  | zero => exact Or.inl rfl
  | succ i' =>
    right
    rcases halive with h0 | hpos
    · exact absurd h0 (Nat.succ_ne_zero i')
    · have hprev : i' < recs.length := by omega
      rw [show i' + 1 - 1 = i' by omega, hget i' hprev] at hpos
      have hb : (idealRecord s (pmtVal s) i').balance
          = balSeq s.monthly_rate (pmtVal s) s.loan_amount (i' + 1) := rfl
      rw [hb] at hpos
      exact ne_of_gt hpos

/-- C2: in every successful run of a valid configuration the balance column
is non-increasing month to month and never negative, the recorded principal
never exceeds the balance entering the month, and when the horizon covers
the amortization term the balance is exactly 0 at month index
`amort_years*12 − 1`. -/
theorem C2_balance_invariants (s : PropertySim) (hn : 1 ≤ s.amort_years)
    (hr : 0 ≤ s.annual_interest_percent) (hrev : revOk s)
    (st : LoopState) (recs : List MonthRecord)
    (hrun : s.simulateE = .ok (st, recs)) :
    recs.length = s.years * 12 ∧
    (∀ i, i + 1 < recs.length →
      (recs.getD (i + 1) rec0).balance ≤ (recs.getD i rec0).balance) ∧
    (∀ i, i < recs.length → 0 ≤ (recs.getD i rec0).balance) ∧
    ((recs.getD 0 rec0).principal ≤ s.loan_amount) ∧
    (∀ i, i + 1 < recs.length →
      (recs.getD (i + 1) rec0).principal ≤ (recs.getD i rec0).balance) ∧
    (s.amort_years ≤ (s.years : ℤ) →
      (recs.getD (s.amort_years * 12 - 1).toNat rec0).balance = 0) := by
  obtain ⟨hlen, hget⟩ := recs_formula s hn hr hrev hrun
  have hL := s.loan_amount_nonneg
  set r := s.monthly_rate with hrdef
  set P := pmtVal s with hPdef
  set L := s.loan_amount with hLdef
  refine ⟨hlen, ?_, ?_, ?_, ?_, ?_⟩
  · intro i hi
    rw [hget (i + 1) hi, hget i (by omega)]
    show balSeq r P L (i + 1 + 1) ≤ balSeq r P L (i + 1)
    exact balSeq_succ_le r P L hL (i + 1)
  · intro i hi
    rw [hget i hi]
    exact balSeq_nonneg r P L hL (i + 1)
  · rcases Nat.eq_zero_or_pos recs.length with h0 | hpos
    · rw [List.getD_eq_default]
      · exact hL
      · omega
    · rw [hget 0 hpos]
      show balSeq r P L 0 - balSeq r P L 1 ≤ L
      have := balSeq_nonneg r P L hL 1
      show L - balSeq r P L 1 ≤ L
      linarith
  · intro i hi
    rw [hget (i + 1) hi, hget i (by omega)]
    show balSeq r P L (i + 1) - balSeq r P L (i + 1 + 1) ≤ balSeq r P L (i + 1)
    have := balSeq_nonneg r P L hL (i + 1 + 1)
    linarith
  · intro hy
    have hidx : (s.amort_years * 12 - 1).toNat < recs.length := by
      rw [hlen]
      omega
    rw [hget _ hidx]
    show balSeq r P L ((s.amort_years * 12 - 1).toNat + 1) = 0
    have harith : (s.amort_years * 12 - 1).toNat + 1 = (s.amort_years * 12).toNat := by
      omega
    rw [harith, hPdef, hrdef, hLdef]
    exact s.balSeq_payoff hn hr

/-- C3 (amended): the time series has exactly `years×12` rows (the run
continues over the whole horizon); the payment column is 0 in every month
strictly after the first month whose recorded balance is 0 and equals the
single constant `pmtVal s` in every month up to and including that month;
that constant is positive exactly when the initial loan amount is positive,
and is 0 when a 100% down payment makes the loan amount 0. -/
theorem C3_payment_profile (s : PropertySim) (hn : 1 ≤ s.amort_years)
    (hr : 0 ≤ s.annual_interest_percent) (hrev : revOk s)
    (st : LoopState) (recs : List MonthRecord)
    (hrun : s.simulateE = .ok (st, recs)) :
    recs.length = s.years * 12 ∧
    (∀ i, i < recs.length →
      ((∃ j, j < i ∧ (recs.getD j rec0).balance = 0) →
        (recs.getD i rec0).mortgage_payment = 0) ∧
      ((∀ j, j < i → (recs.getD j rec0).balance ≠ 0) →
        (recs.getD i rec0).mortgage_payment = pmtVal s)) ∧
    (0 < s.loan_amount → 0 < pmtVal s) ∧
    (s.loan_amount = 0 → pmtVal s = 0) := by
  obtain ⟨hlen, hget⟩ := recs_formula s hn hr hrev hrun
  have hL := s.loan_amount_nonneg
  set r := s.monthly_rate with hrdef
  set P := pmtVal s with hPdef
  set L := s.loan_amount with hLdef
  refine ⟨hlen, ?_, ?_, ?_⟩
  · intro i hi
    constructor
    · rintro ⟨j, hj, hjz⟩
      rw [hget j (by omega)] at hjz
      have hz : balSeq r P L (j + 1) = 0 := hjz
      have hiz : balSeq r P L i = 0 :=
        balSeq_zero_absorb r P L hL (by omega) hz
      rw [hget i hi]
      show mmtgSeq r P L i = 0
      exact mmtgSeq_of_zero r P L (by omega) hiz
    · intro hall
      rw [hget i hi]
      show mmtgSeq r P L i = P
      apply mmtgSeq_of_ne_zero
      cases i with
      | zero => exact Or.inl rfl
      | succ i' =>
        right
        have := hall i' (by omega)
        rw [hget i' (by omega)] at this
        exact this
  · intro hpos
    exact s.pmtVal_pos hn hr hpos
  · intro hz
    exact s.pmtVal_of_loan_zero hz

/-- C4: every 12th month the base rate and the property price are escalated
and the tax/insurance/maintenance monthly figures recomputed, so the
recorded property value in month `m` is
`purchase_price·(1+appreciation/100)^⌊m/12⌋` and the recorded expenses are
that year's monthly tax, insurance and maintenance on that value plus the
never-escalated `other_costs_monthly`; the recorded effective rent is the
revenue model applied to the correspondingly escalated base rate. -/
theorem C4_escalation (s : PropertySim) (hn : 1 ≤ s.amort_years)
    (hr : 0 ≤ s.annual_interest_percent) (hrev : revOk s)
    (st : LoopState) (recs : List MonthRecord)
    (hrun : s.simulateE = .ok (st, recs)) :
    ∀ m, m < recs.length →
      (recs.getD m rec0).property_value
        = s.purchase_price * (1 + s.appreciation_percent_per_year / 100) ^ (m / 12) ∧
      (recs.getD m rec0).expenses
        = (recs.getD m rec0).property_value * (s.tax_percent_of_price_per_year / 100) / 12
          + (recs.getD m rec0).property_value * (s.insurance_percent_of_price_per_year / 100) / 12
          + (recs.getD m rec0).property_value * (s.maintenance_percent_of_price_per_year / 100) / 12
          + s.other_costs_monthly ∧
      calculate_monthly_revenueE s
          (baseRate0 s * (1 + s.rent_growth_percent_per_year / 100) ^ (m / 12))
        = .ok ((recs.getD m rec0).effective_rent) := by
  obtain ⟨hlen, hget⟩ := recs_formula s hn hr hrev hrun
  intro m hm
  rw [hget m hm]
  refine ⟨rfl, rfl, ?_⟩
  show calculate_monthly_revenueE s (brAt s m) = .ok (effAt s m)
  exact calculate_monthly_revenueE_ok s hrev (brAt s m)

/-- C10: when a positive loan is paid off at month `m` inside the horizon,
month `m` itself still records the full constant payment (which is
positive) and its cash flow deducts that full payment; the payment column
is 0 only from month `m+1` onward. -/
theorem C10_payoff_month (s : PropertySim) (hn : 1 ≤ s.amort_years)
    (hr : 0 ≤ s.annual_interest_percent) (hrev : revOk s)
    (hL : 0 < s.loan_amount)
    (st : LoopState) (recs : List MonthRecord)
    (hrun : s.simulateE = .ok (st, recs))
    (m : ℕ) (hm : m < recs.length)
    (hz : (recs.getD m rec0).balance = 0)
    (hfirst : ∀ j, j < m → (recs.getD j rec0).balance ≠ 0) :
    0 < pmtVal s ∧
    (recs.getD m rec0).mortgage_payment = pmtVal s ∧
    (recs.getD m rec0).monthly_cash_flow
      = (recs.getD m rec0).effective_rent - (recs.getD m rec0).expenses - pmtVal s ∧
    (∀ j, m < j → j < recs.length → (recs.getD j rec0).mortgage_payment = 0) := by
  obtain ⟨hlen, hget⟩ := recs_formula s hn hr hrev hrun
  have hLnn := s.loan_amount_nonneg
  set r := s.monthly_rate with hrdef
  set P := pmtVal s with hPdef
  set L := s.loan_amount with hLdef
  have hmz : balSeq r P L (m + 1) = 0 := by
    have := hz
    rw [hget m hm] at this
    exact this
  have hmP : mmtgSeq r P L m = P := by
    apply mmtgSeq_of_ne_zero
    cases m with
    | zero => exact Or.inl rfl
    | succ m' =>
      right
      have := hfirst m' (by omega)
      rw [hget m' (by omega)] at this
      exact this
  refine ⟨s.pmtVal_pos hn hr hL, ?_, ?_, ?_⟩
  · rw [hget m hm]
    exact hmP
  · rw [hget m hm]
    show cfAt s P m = effAt s m - expAt s m - P
    unfold cfAt
    rw [hmP]
  · intro j hj hjlen
    rw [hget j hjlen]
    show mmtgSeq r P L j = 0
    apply mmtgSeq_of_zero r P L (by omega)
    exact balSeq_zero_absorb r P L hLnn (by omega) hmz

theorem exmap_ok {ε α β : Type} (a : α) (f : α → β) :
    (Except.ok a : Except ε α).map f = .ok (f a) := rfl

/-- Anatomy of a successful `run`-with-summary call. -/
theorem runE_ok_elim (s : PropertySim) {recs : List MonthRecord} {sm : SummaryMetrics}
    (hok : s.runE = .ok (recs, sm)) :
    ∃ stF r0 rest P coc,
      s.simulateE = .ok (stF, recs) ∧ recs = r0 :: rest ∧
      s.mortgage_payment_monthlyE = .ok P ∧
      s.initial_cash_on_cash_percentE = .ok coc ∧
      sm = { monthly_mortgage := P
             initial_cash_on_cash_percent := coc
             ending_monthly_cash_flow := ((recs.getLast?).getD r0).monthly_cash_flow
             cumulative_cash_flow := stF.cumulative_cf
             terminal_equity := stF.current_price - stF.balance
             total_invested_est := s.total_upfront + |min 0 stF.cumulative_cf|
             total_return_est := stF.current_price - stF.balance
               - (s.purchase_price - s.down_payment) + stF.cumulative_cf
             payback_month_on_upfront :=
               if 0 ≤ r0.cumulative_cash_flow then some 0
               else recs.findIdx?
                 (fun r => decide (s.total_upfront ≤ r.cumulative_cash_flow)) } := by
  unfold runE at hok
  cases hsim : s.simulateE with
  | error e =>
    rw [hsim, exbind_err] at hok
    simp at hok
  | ok p =>
    obtain ⟨stF, recs'⟩ := p
    rw [hsim, exbind_ok] at hok
    cases recs' with
    | nil => simp [List.head?] at hok
    | cons a l =>
      simp only [List.head?] at hok
      cases hpay : s.mortgage_payment_monthlyE with
      | error e =>
        rw [hpay, exbind_err] at hok
        simp at hok
      | ok P =>
        rw [hpay, exbind_ok] at hok
        cases hcoc : s.initial_cash_on_cash_percentE with
        | error e =>
          rw [hcoc, exbind_err] at hok
          simp at hok
        | ok coc =>
          rw [hcoc, exbind_ok] at hok
          injection hok with hok
          injection hok with h1 h2
          subst h1
          exact ⟨stF, a, l, P, coc, rfl, rfl, rfl, rfl, h2.symm⟩

theorem initial_cash_on_cash_percentE_ok (s : PropertySim) (hrev : revOk s)
    (hup : s.total_upfront ≠ 0) :
    s.initial_cash_on_cash_percentE = .ok (cocVal s) := by
  unfold initial_cash_on_cash_percentE cocVal
  by_cases hst : s.rental_type = "short_term"
  · rw [if_pos hst, if_pos hst, calculate_monthly_revenueE_ok s hrev,
      exmap_ok, exbind_ok]
    simp only [if_neg hup]
  · rw [if_neg hst, if_neg hst, calculate_monthly_revenueE_ok s hrev,
      exmap_ok, exbind_ok]
    simp only [if_neg hup]

/-- Construction of a successful `run`-with-summary call. -/
theorem runE_ok_intro (s : PropertySim) {stF : LoopState} {r0 : MonthRecord}
    {rest : List MonthRecord} {P coc : ℚ}
    (hsim : s.simulateE = .ok (stF, r0 :: rest))
    (hpay : s.mortgage_payment_monthlyE = .ok P)
    (hcoc : s.initial_cash_on_cash_percentE = .ok coc) :
    s.runE = .ok (r0 :: rest,
      { monthly_mortgage := P
        initial_cash_on_cash_percent := coc
        ending_monthly_cash_flow := (((r0 :: rest).getLast?).getD r0).monthly_cash_flow
        cumulative_cash_flow := stF.cumulative_cf
        terminal_equity := stF.current_price - stF.balance
        total_invested_est := s.total_upfront + |min 0 stF.cumulative_cf|
        total_return_est := stF.current_price - stF.balance
          - (s.purchase_price - s.down_payment) + stF.cumulative_cf
        payback_month_on_upfront :=
          if 0 ≤ r0.cumulative_cash_flow then some 0
          else (r0 :: rest).findIdx?
            (fun r => decide (s.total_upfront ≤ r.cumulative_cash_flow)) }) := by
  unfold runE
  rw [hsim, exbind_ok]
  simp only [List.head?]
  rw [hpay, exbind_ok, hcoc, exbind_ok]

/-- C6 (amended): for every configuration satisfying the §3 invariant whose
total upfront cash is nonzero and whose revenue model does not divide by a
zero `avg_stay_length_nights`, the engine run and summary derivation
complete without any runtime failure. -/
theorem C6_run_succeeds (s : PropertySim) (hn : 1 ≤ s.amort_years)
    (hr : 0 ≤ s.annual_interest_percent) (hy : 1 ≤ s.years)
    (hrev : revOk s) (hup : s.total_upfront ≠ 0) :
    (s.runE).isOk = true := by
  have hpay := s.mortgage_payment_monthlyE_ok hn hr
  have hsim := simulateE_ideal s (pmtVal s) hrev (s.pmtVal_nonneg hn hr) hpay
  have hcoc := s.initial_cash_on_cash_percentE_ok hrev hup
  have h12 : 12 ≤ s.total_months := by
    unfold total_months
    omega
  have htm : s.total_months = (s.total_months - 1) + 1 := by omega
  rw [htm] at hsim
  have hsim' : s.simulateE = .ok
      (idealState s (pmtVal s) ((s.total_months - 1) + 1),
        idealRecord s (pmtVal s) 0 ::
          idealList s (pmtVal s) 1 (s.total_months - 1)) := hsim
  rw [runE_ok_intro s hsim' hpay hcoc]
  rfl

/-- C9: the summary's `payback_month_on_upfront` is month 0 when month 0's
cumulative cash flow is non-negative, and otherwise the first month index
whose cumulative cash flow reaches `total_upfront` (`none` when no month
within the horizon does). -/
theorem C9_payback (s : PropertySim) (recs : List MonthRecord)
    (sm : SummaryMetrics) (hok : s.runE = .ok (recs, sm))
    (r0 : MonthRecord) (h0 : recs.head? = some r0) :
    (0 ≤ r0.cumulative_cash_flow → sm.payback_month_on_upfront = some 0) ∧
    (r0.cumulative_cash_flow < 0 →
      sm.payback_month_on_upfront
        = recs.findIdx? (fun r => decide (s.total_upfront ≤ r.cumulative_cash_flow))) := by
  obtain ⟨stF, a, l, P, coc, hsim, hrest, hpay, hcoc, hsm⟩ := runE_ok_elim s hok
  subst hrest
  have ha : a = r0 := by
    simpa using h0
  subst ha
  constructor
  · intro hge
    rw [hsm]
    show (if 0 ≤ a.cumulative_cash_flow then some 0
      else (a :: l).findIdx?
        (fun r => decide (s.total_upfront ≤ r.cumulative_cash_flow))) = some 0
    rw [if_pos hge]
  · intro hlt
    rw [hsm]
    show (if 0 ≤ a.cumulative_cash_flow then some 0
      else (a :: l).findIdx?
        (fun r => decide (s.total_upfront ≤ r.cumulative_cash_flow))) = _
    rw [if_neg (not_le.2 hlt)]

set_option maxRecDepth 100000 in
unseal Rat.mul Rat.add Rat.sub Rat.inv in
/-- C5 (amended): the code performs no input validation and never raises an
invalid-configuration error: every failure happens during the computation,
never as a rejection before it.  An unrecognized `rental_type` silently
takes the long-term branch and a full result is produced; a sweep request
with lower bound above the upper bound and a single sample is processed and
produces a row; a negative `amort_years` is accepted — the payment formula
evaluates with a negative term count, yielding a negative payment, and the
run completes; `amort_years = 0` makes the payment computation divide by
zero; `years = 0` makes the summary fail on the empty result frame when it
reads month 0; a sweep with sample count 0 fails with an empty result frame
when the break-even filter reads it. -/
theorem C5_no_validation :
    (∀ (s : PropertySim) (b : ℚ), s.rental_type ≠ "short_term" →
      s.calculate_monthly_revenueE b = .ok (b * (1 - pct_to_dec s.vacancy_percent))) ∧
    (∀ s : PropertySim, s.amort_years = 0 →
      s.mortgage_payment_monthlyE = .error .zeroDivision) ∧
    (cfgNegAmort.amort_years = -1 ∧
      cfgNegAmort.mortgage_payment_monthlyE = .ok (-(20000 / 3)) ∧
      (cfgNegAmort.runE).isOk = true) ∧
    (∀ (s : PropertySim) (P : ℚ), s.years = 0 →
      s.mortgage_payment_monthlyE = .ok P → s.runE = .error .emptyFrame) ∧
    (∀ (base : PropertySim) (upper_limit lower_limit : ℚ),
      AutoSim.down_payment_for_cashflowE base upper_limit lower_limit 0
        = .error .emptyFrame) ∧
    (cfgOddRental.runE).isOk = true ∧
    (AutoSim.down_payment_for_cashflowE cfgSweep 5 50 1).isOk = true := by
  refine ⟨?_, ?_, by decide, ?_, ?_, by decide, by decide⟩
  · intro s b h
    unfold calculate_monthly_revenueE
    rw [if_neg h]
  · intro s h
    unfold mortgage_payment_monthlyE
    rw [h]
    by_cases h0 : s.monthly_rate = 0
    · rw [if_pos h0, if_pos (by norm_num)]
    · rw [if_neg h0, if_neg (fun hc => absurd hc.2 (by norm_num)),
        if_pos (by norm_num)]
  swap
  · intro base upper_limit lower_limit
    rfl
  · intro s P hy hpay
    have htm : s.total_months = 0 := by simp [total_months, hy]
    have hsim : s.simulateE = .ok
        ({ base_rate := if s.rental_type = "short_term" then s.nightly_rate else s.monthly_rent
           current_price := s.purchase_price
           monthly_tax := s.tax_yearly / 12
           monthly_ins := s.insurance_yearly / 12
           monthly_maint := s.maintenance_yearly / 12
           balance := s.loan_amount
           mmtg := P
           cumulative_cf := 0
           cumulative_principal := 0 }, ([] : List MonthRecord)) := by
      unfold simulateE
      rw [hpay, exbind_ok, htm]
      rfl
    unfold runE
    rw [hsim, exbind_ok]
    rfl

unseal Rat.mul Rat.add Rat.sub Rat.inv in
/-- C3 counterexample: `cfgFullDP` is a valid configuration (100% down
payment), its recorded balance is 0 from month 0 on, and the recorded
mortgage payment is 0 in all twelve months — in particular it is not
positive in the first month whose balance is 0. -/
theorem C3_counterexample :
    (cfgFullDP.simulateE.map
      (fun p => p.2.map (fun r => (r.balance, r.mortgage_payment))))
      = .ok (List.replicate 12 ((0 : ℚ), (0 : ℚ))) := by decide

unseal Rat.mul Rat.add Rat.sub Rat.inv in
/-- C6 counterexample: two configurations satisfying the stated invariant on
which the run raises a division-by-zero failure: zero down payment with
zero closing costs (the cash-on-cash summary divides by `total_upfront =
0`), and a short-term rental with `avg_stay_length_nights = 0` (the revenue
model divides by it). -/
theorem C6_counterexample :
    cfgZeroUpfront.runE = .error .zeroDivision ∧
    cfgZeroStay.runE = .error .zeroDivision := by decide

unseal Rat.mul Rat.add Rat.sub Rat.inv in
/-- C5 counterexample: a configuration with an unrecognized `rental_type`
is not rejected — the engine run completes and produces a full 12-row
result, so no invalid-configuration error is raised before computation. -/
theorem C5_counterexample :
    cfgOddRental.rental_type ≠ "long_term" ∧
    cfgOddRental.rental_type ≠ "short_term" ∧
    (cfgOddRental.runE.map (fun p => p.1.length)) = .ok 12 := by decide
end PropertySim

namespace AutoSim

open PropertySim

theorem linspace_length (start stop : ℚ) (num : ℕ) :
    (linspace start stop num).length = num := by
  unfold linspace
  by_cases h0 : num = 0
  · rw [if_pos h0, h0]
    rfl
  · rw [if_neg h0]
    by_cases h1 : num = 1
    · rw [if_pos h1, h1]
      rfl
    · rw [if_neg h1, List.length_map, List.length_range]

theorem linspace_getD (start stop : ℚ) (num : ℕ) (h2 : 2 ≤ num)
    (i : ℕ) (hi : i < num) :
    (linspace start stop num).getD i 0
      = start + (i : ℚ) * (stop - start) / ((num : ℚ) - 1) := by
  unfold linspace
  rw [if_neg (by omega), if_neg (by omega),
    List.getD_eq_getElem?_getD, List.getElem?_map, List.getElem?_range hi]
  rfl

theorem linspace_head (start stop : ℚ) (num : ℕ) (h2 : 2 ≤ num) :
    (linspace start stop num).getD 0 0 = start := by
  rw [linspace_getD start stop num h2 0 (by omega)]
  push_cast
  ring

theorem linspace_last (start stop : ℚ) (num : ℕ) (h2 : 2 ≤ num) :
    (linspace start stop num).getD (num - 1) 0 = stop := by
  rw [linspace_getD start stop num h2 (num - 1) (by omega)]
  have hne : ((num : ℚ) - 1) ≠ 0 := by
    have h : (2 : ℚ) ≤ (num : ℚ) := by exact_mod_cast h2
    intro hc
    nlinarith
  have hcast : ((num - 1 : ℕ) : ℚ) = (num : ℚ) - 1 := by
    have h1 : 1 ≤ num := by omega
    push_cast [h1]
    ring
  rw [hcast]
  field_simp

theorem linspace_spacing (start stop : ℚ) (num : ℕ) (h2 : 2 ≤ num)
    (i : ℕ) (hi : i + 1 < num) :
    (linspace start stop num).getD (i + 1) 0 - (linspace start stop num).getD i 0
      = (stop - start) / ((num : ℚ) - 1) := by
  rw [linspace_getD start stop num h2 (i + 1) hi,
    linspace_getD start stop num h2 i (by omega)]
  push_cast
  ring

theorem linspace_strictMono (start stop : ℚ) (num : ℕ) (h2 : 2 ≤ num)
    (hlt : start < stop) {i j : ℕ} (hij : i < j) (hj : j < num) :
    (linspace start stop num).getD i 0 < (linspace start stop num).getD j 0 := by
  rw [linspace_getD start stop num h2 i (by omega),
    linspace_getD start stop num h2 j hj]
  have hpos : (0 : ℚ) < (num : ℚ) - 1 := by
    have h : (2 : ℚ) ≤ (num : ℚ) := by exact_mod_cast h2
    linarith
  have hij' : (i : ℚ) < (j : ℚ) := by exact_mod_cast hij
  have hd : (0 : ℚ) < stop - start := by linarith
  have hkey : (i : ℚ) * (stop - start) / ((num : ℚ) - 1)
      < (j : ℚ) * (stop - start) / ((num : ℚ) - 1) := by
    rw [div_lt_div_iff hpos hpos]
    nlinarith [mul_pos (mul_pos (sub_pos.2 hij') hd) hpos]
  linarith

theorem mkRowE_rowSpec (base : PropertySim) (p : ℚ) {row : SweepRow}
    (h : mkRowE base p = .ok row) : rowSpec base p row := by
  simp only [mkRowE] at h
  cases hrun : PropertySim.runE { base with down_payment_percent := p } with
  | error e =>
    rw [hrun, exbind_err] at h
    simp at h
  | ok q =>
    obtain ⟨recs, sm⟩ := q
    rw [hrun, exbind_ok] at h
    cases recs with
    | nil => simp [List.head?] at h
    | cons a l =>
      simp only [List.head?] at h
      injection h with h
      exact ⟨a :: l, sm, a, l, hrun, rfl, h.symm⟩

/-- Behaviour of the sweep loop: it returns one row per sample until (and
including) the first row with positive cash flow; every returned row comes
from `mkRowE` at the corresponding sample; all rows but possibly the last
have non-positive cash flow; and if it stopped early the last row's cash
flow is positive. -/
theorem sweepLoopE_spec (base : PropertySim) :
    ∀ ps rows, sweepLoopE base ps = .ok rows →
      rows.length ≤ ps.length ∧
      (ps ≠ [] → rows ≠ []) ∧
      (∀ i, i < rows.length → mkRowE base (ps.getD i 0) = .ok (rows.getD i row0)) ∧
      (∀ i, i + 1 < rows.length → ¬ 0 < (rows.getD i row0).monthly_cash_flow) ∧
      (rows.length < ps.length → rows ≠ [] ∧
        0 < (rows.getD (rows.length - 1) row0).monthly_cash_flow)
  | [], rows, h => by
    unfold sweepLoopE at h
    injection h with h
    subst h
    refine ⟨le_rfl, fun hc => absurd rfl hc, ?_, ?_, ?_⟩
    · intro i hi
      exact absurd hi (by simp)
    · intro i hi
      exact absurd hi (by simp)
    · intro hc
      exact absurd hc (by simp)
  | p :: ps, rows, h => by
    unfold sweepLoopE at h
    cases hrow : mkRowE base p with
    | error e =>
      rw [hrow, exbind_err] at h
      simp at h
    | ok row =>
      rw [hrow, exbind_ok] at h
      by_cases hpos : 0 < row.monthly_cash_flow
      · rw [if_pos hpos] at h
        injection h with h
        subst h
        refine ⟨by simp, fun _ => by simp, ?_, ?_, ?_⟩
        · intro i hi
          simp only [List.length_cons, List.length_nil] at hi
          interval_cases i
          simpa using hrow
        · intro i hi
          simp at hi
        · intro _
          exact ⟨by simp, by simpa using hpos⟩
      · rw [if_neg hpos] at h
        cases hrec : sweepLoopE base ps with
        | error e =>
          rw [hrec, exbind_err] at h
          simp at h
        | ok rest =>
          rw [hrec, exbind_ok] at h
          injection h with h
          subst h
          obtain ⟨ih1, ih2, ih3, ih4, ih5⟩ := sweepLoopE_spec base ps rest hrec
          refine ⟨by simpa using ih1, fun _ => by simp, ?_, ?_, ?_⟩
          · intro i hi
            cases i with
            | zero => simpa using hrow
            | succ i' =>
              rw [List.getD_cons_succ, List.getD_cons_succ]
              exact ih3 i' (by simpa using hi)
          · intro i hi
            cases i with
            | zero => simpa using hpos
            | succ i' =>
              rw [List.getD_cons_succ]
              exact ih4 i' (by simpa using hi)
          · intro hlt
            have hlt' : rest.length < ps.length := by simpa using hlt
            obtain ⟨hne, hlast⟩ := ih5 hlt'
            have hlen1 : 1 ≤ rest.length := List.length_pos.mpr hne
            refine ⟨by simp, ?_⟩
            have harith : (row :: rest).length - 1 = (rest.length - 1) + 1 := by
              simp only [List.length_cons]
              omega
            rw [harith, List.getD_cons_succ]
            exact hlast

/-- Anatomy of a successful sweep call: the rows are those of the sweep
loop over the `linspace` samples, and the returned pair is read off the
first row with positive cash flow. -/
theorem down_payment_for_cashflowE_elim (base : PropertySim)
    (upper_limit lower_limit : ℚ) (num : ℕ)
    {rows : List SweepRow} {dpA dpP : Option ℚ}
    (hok : down_payment_for_cashflowE base upper_limit lower_limit num
      = .ok (rows, dpA, dpP)) :
    sweepLoopE base (linspace lower_limit upper_limit num) = .ok rows ∧
    (match rows.find? (fun row => decide (0 < row.monthly_cash_flow)) with
     | some row => dpA = some row.down_payment ∧ dpP = some row.down_payment_percentage
     | none => dpA = none ∧ dpP = none) := by
  simp only [down_payment_for_cashflowE] at hok
  cases hl : sweepLoopE base (linspace lower_limit upper_limit num) with
  | error e =>
    rw [hl, exbind_err] at hok
    simp at hok
  | ok rows' =>
    rw [hl, exbind_ok] at hok
    cases rows' with
    | nil => injection hok
    | cons a l =>
      cases hf : (a :: l).find? (fun row => decide (0 < row.monthly_cash_flow)) with
      | some row =>
        rw [hf] at hok
        injection hok with hok
        injection hok with h1 h2
        injection h2 with h2 h3
        subst h1
        subst h2
        subst h3
        rw [hf]
        exact ⟨rfl, rfl, rfl⟩
      | none =>
        rw [hf] at hok
        injection hok with hok
        injection hok with h1 h2
        injection h2 with h2 h3
        subst h1
        subst h2
        subst h3
        rw [hf]
        exact ⟨rfl, rfl, rfl⟩

/-- C7: a successful sweep over a proper range `[lower, upper]` with `n ≥ 2`
samples evaluates `n` evenly spaced percentages inclusive of both ends in
ascending order, each produced row comes from running the engine on the
reference configuration with only `down_payment_percent` replaced and is
built from the first month's figures plus three summary KPIs, every row but
the last has non-positive cash flow, and if fewer than `n` rows were
produced the last row's cash flow is positive (no higher percentage was
evaluated). -/
theorem C7_sweep (base : PropertySim) (lower_limit upper_limit : ℚ) (num : ℕ)
    (h2 : 2 ≤ num) (hlt : lower_limit < upper_limit)
    (rows : List SweepRow) (dpA dpP : Option ℚ)
    (hok : down_payment_for_cashflowE base upper_limit lower_limit num
      = .ok (rows, dpA, dpP)) :
    (linspace lower_limit upper_limit num).length = num ∧
    (linspace lower_limit upper_limit num).getD 0 0 = lower_limit ∧
    (linspace lower_limit upper_limit num).getD (num - 1) 0 = upper_limit ∧
    (∀ i, i + 1 < num →
      (linspace lower_limit upper_limit num).getD (i + 1) 0
        - (linspace lower_limit upper_limit num).getD i 0
        = (upper_limit - lower_limit) / ((num : ℚ) - 1)) ∧
    (∀ i j, i < j → j < num →
      (linspace lower_limit upper_limit num).getD i 0
        < (linspace lower_limit upper_limit num).getD j 0) ∧
    1 ≤ rows.length ∧ rows.length ≤ num ∧
    (∀ i, i < rows.length →
      rowSpec base ((linspace lower_limit upper_limit num).getD i 0) (rows.getD i row0)) ∧
    (∀ i, i + 1 < rows.length → ¬ 0 < (rows.getD i row0).monthly_cash_flow) ∧
    (rows.length < num → 0 < (rows.getD (rows.length - 1) row0).monthly_cash_flow) := by
  obtain ⟨hloop, hsel⟩ :=
    down_payment_for_cashflowE_elim base upper_limit lower_limit num hok
  obtain ⟨hle, hne, hget, hnonpos, hlastpos⟩ :=
    sweepLoopE_spec base (linspace lower_limit upper_limit num) rows hloop
  have hlen := linspace_length lower_limit upper_limit num
  refine ⟨hlen,
    linspace_head lower_limit upper_limit num h2,
    linspace_last lower_limit upper_limit num h2,
    fun i hi => linspace_spacing lower_limit upper_limit num h2 i hi,
    fun i j hij hj => linspace_strictMono lower_limit upper_limit num h2 hlt hij hj,
    ?_, ?_, ?_, hnonpos, ?_⟩
  · have : linspace lower_limit upper_limit num ≠ [] := by
      intro hc
      rw [hc] at hlen
      simp at hlen
      omega
    have := hne this
    exact List.length_pos.mpr this
  · rw [hlen] at hle
    exact hle
  · intro i hi
    exact mkRowE_rowSpec base _ (hget i hi)
  · intro hlt'
    have : rows.length < (linspace lower_limit upper_limit num).length := by
      rw [hlen]
      exact hlt'
    exact (hlastpos this).2

theorem rowSpec_pct {base : PropertySim} {p : ℚ} {row : SweepRow}
    (h : rowSpec base p row) : row.down_payment_percentage = p := by
  obtain ⟨recs, sm, r1, rest, hrun, hrecs, hrow⟩ := h
  rw [hrow]

theorem rowSpec_cf {base : PropertySim} {p : ℚ} {row : SweepRow}
    (h : rowSpec base p row) :
    ∃ recs sm r1 rest,
      PropertySim.runE { base with down_payment_percent := p } = .ok (recs, sm) ∧
      recs = r1 :: rest ∧ row.monthly_cash_flow = r1.monthly_cash_flow := by
  obtain ⟨recs, sm, r1, rest, hrun, hrecs, hrow⟩ := h
  exact ⟨recs, sm, r1, rest, hrun, hrecs, by rw [hrow]⟩

/-- C8: in a successful sweep the rows are in ascending percentage order,
the returned break-even pair is the `(down_payment, percentage)` of the
first row with positive monthly cash flow, and both components are `none`
exactly when no sampled percentage yields a positive first-month cash
flow. -/
theorem C8_breakeven (base : PropertySim) (lower_limit upper_limit : ℚ) (num : ℕ)
    (h2 : 2 ≤ num) (hlt : lower_limit < upper_limit)
    (rows : List SweepRow) (dpA dpP : Option ℚ)
    (hok : down_payment_for_cashflowE base upper_limit lower_limit num
      = .ok (rows, dpA, dpP)) :
    (∀ i j, i < j → j < rows.length →
      (rows.getD i row0).down_payment_percentage
        < (rows.getD j row0).down_payment_percentage) ∧
    (match rows.find? (fun row => decide (0 < row.monthly_cash_flow)) with
     | some row => dpA = some row.down_payment ∧ dpP = some row.down_payment_percentage
     | none => dpA = none ∧ dpP = none) ∧
    ((dpA = none ∧ dpP = none) ↔
      ∀ i, i < num → ∀ recs sm,
        PropertySim.runE { base with down_payment_percent :=
          (linspace lower_limit upper_limit num).getD i 0 } = .ok (recs, sm) →
        ∀ r1 ∈ recs.head?, r1.monthly_cash_flow ≤ 0) := by
  obtain ⟨hloop, hsel⟩ :=
    down_payment_for_cashflowE_elim base upper_limit lower_limit num hok
  obtain ⟨hle, hne, hget, hnonpos, hlastpos⟩ :=
    sweepLoopE_spec base (linspace lower_limit upper_limit num) rows hloop
  have hlen := linspace_length lower_limit upper_limit num
  have hlenle : rows.length ≤ num := by
    rw [hlen] at hle
    exact hle
  refine ⟨?_, hsel, ?_⟩
  · intro i j hij hj
    have hi' := mkRowE_rowSpec base _ (hget i (by omega))
    have hj' := mkRowE_rowSpec base _ (hget j hj)
    rw [rowSpec_pct hi', rowSpec_pct hj']
    exact linspace_strictMono lower_limit upper_limit num h2 hlt hij (by omega)
  · constructor
    · rintro ⟨hA, hP⟩ i hi recs sm hrun r1 hr1
      cases hf : rows.find? (fun row => decide (0 < row.monthly_cash_flow)) with
      | some row =>
        rw [hf] at hsel
        rw [hsel.1] at hA
        exact absurd hA (by simp)
      | none =>
        have hall : ∀ row ∈ rows, ¬ 0 < row.monthly_cash_flow := by
          intro row hrow
          have := List.find?_eq_none.mp hf row hrow
          simpa using this
        have hfull : rows.length = num := by
          by_contra hc
          have hlt' : rows.length < num := by omega
          have hpos := (hlastpos (by rw [hlen]; exact hlt')).2
          have hmem : rows.getD (rows.length - 1) row0 ∈ rows := by
            have hlp : 0 < rows.length := by
              have := (hlastpos (by rw [hlen]; exact hlt')).1
              exact List.length_pos.mpr this
            rw [List.getD_eq_getElem rows row0 (by omega)]
            exact List.getElem_mem _
          exact hall _ hmem hpos
        have hi' : i < rows.length := by omega
        obtain ⟨recs', sm', r1', rest', hrun', hrecs', hcf⟩ :=
          rowSpec_cf (mkRowE_rowSpec base _ (hget i hi'))
        rw [hrun'] at hrun
        injection hrun with hrun
        injection hrun with hr hs
        subst hr
        subst hs
        rw [hrecs'] at hr1
        simp only [List.head?] at hr1
        have : r1 = r1' := by
          rw [Option.mem_def] at hr1
          injection hr1 with h
          exact h.symm
        subst this
        rw [← hcf]
        have hmem : rows.getD i row0 ∈ rows := by
          rw [List.getD_eq_getElem rows row0 hi']
          exact List.getElem_mem _
        exact not_lt.mp (hall _ hmem)
    · intro hall'
      cases hf : rows.find? (fun row => decide (0 < row.monthly_cash_flow)) with
      | none =>
        rw [hf] at hsel
        exact hsel
      | some row =>
        exfalso
        have hmem : row ∈ rows := List.mem_of_find?_eq_some hf
        have hpos : 0 < row.monthly_cash_flow := by
          have := List.find?_some hf
          simpa using this
        obtain ⟨i, hilen, higet⟩ := List.getElem_of_mem hmem
        have hgetD : rows.getD i row0 = row := by
          rw [List.getD_eq_getElem rows row0 hilen]
          exact higet
        obtain ⟨recs', sm', r1', rest', hrun', hrecs', hcf⟩ :=
          rowSpec_cf (mkRowE_rowSpec base _ (hget i hilen))
        rw [hgetD] at hcf
        have hle0 := hall' i (by omega) recs' sm' hrun' r1'
          (by rw [hrecs']; simp [List.head?])
        rw [hcf] at hpos
        exact absurd hpos (not_lt.mpr hle0)
end AutoSim

namespace PropertySim

set_option maxRecDepth 100000 in
unseal Rat.mul Rat.add Rat.sub Rat.inv in
/-- Witness for C1 at `cfgMain`. -/
theorem C1_payment_formula_witness :
    cfgMain.mortgage_payment_monthlyE = .ok (specPayment cfgMain) ∧
    ((simResult cfgMain).2.getD 0 rec0).mortgage_payment = specPayment cfgMain := by
  have h := C1_payment_formula cfgMain (by decide) (by decide) (by decide)
    (simResult cfgMain).1 (simResult cfgMain).2 (by rfl)
  exact ⟨h.1, h.2 0 (by decide) (Or.inl rfl)⟩

set_option maxRecDepth 100000 in
unseal Rat.mul Rat.add Rat.sub Rat.inv in
/-- Witness for C2 at `cfgPayoff` (the loan pays off exactly at month 11). -/
theorem C2_balance_invariants_witness :
    ((simResult cfgPayoff).2.getD 11 rec0).balance = 0 ∧
    0 ≤ ((simResult cfgPayoff).2.getD 5 rec0).balance := by
  have h := C2_balance_invariants cfgPayoff (by decide) (by decide) (by decide)
    (simResult cfgPayoff).1 (simResult cfgPayoff).2 (by rfl)
  exact ⟨h.2.2.2.2.2 (by decide), h.2.2.1 5 (by decide)⟩

set_option maxRecDepth 100000 in
unseal Rat.mul Rat.add Rat.sub Rat.inv in
/-- Witness for the amended C3 at `cfgPayoff`: 24 rows, and the payment is 0
in month 12, the month after payoff. -/
theorem C3_payment_profile_witness :
    (simResult cfgPayoff).2.length = 24 ∧
    ((simResult cfgPayoff).2.getD 12 rec0).mortgage_payment = 0 := by
  have h := C3_payment_profile cfgPayoff (by decide) (by decide) (by decide)
    (simResult cfgPayoff).1 (simResult cfgPayoff).2 (by rfl)
  exact ⟨h.1, (h.2.1 12 (by decide)).1 ⟨11, by decide, by decide⟩⟩

set_option maxRecDepth 100000 in
unseal Rat.mul Rat.add Rat.sub Rat.inv in
/-- Witness for C4 at `cfgPayoff`, month 13 (one month after the first
annual escalation). -/
theorem C4_escalation_witness :
    ((simResult cfgPayoff).2.getD 13 rec0).property_value
      = cfgPayoff.purchase_price
        * (1 + cfgPayoff.appreciation_percent_per_year / 100) ^ (13 / 12) ∧
    ((simResult cfgPayoff).2.getD 13 rec0).expenses
      = ((simResult cfgPayoff).2.getD 13 rec0).property_value
          * (cfgPayoff.tax_percent_of_price_per_year / 100) / 12
        + ((simResult cfgPayoff).2.getD 13 rec0).property_value
          * (cfgPayoff.insurance_percent_of_price_per_year / 100) / 12
        + ((simResult cfgPayoff).2.getD 13 rec0).property_value
          * (cfgPayoff.maintenance_percent_of_price_per_year / 100) / 12
        + cfgPayoff.other_costs_monthly ∧
    calculate_monthly_revenueE cfgPayoff
        (baseRate0 cfgPayoff
          * (1 + cfgPayoff.rent_growth_percent_per_year / 100) ^ (13 / 12))
      = .ok (((simResult cfgPayoff).2.getD 13 rec0).effective_rent) := by
  exact C4_escalation cfgPayoff (by decide) (by decide) (by decide)
    (simResult cfgPayoff).1 (simResult cfgPayoff).2 (by rfl)
    13 (by decide)

set_option maxRecDepth 100000 in
unseal Rat.mul Rat.add Rat.sub Rat.inv in
/-- Witness for the amended C5 at concrete invalid inputs. -/
theorem C5_no_validation_witness :
    cfgOddRental.calculate_monthly_revenueE 1000
      = .ok (1000 * (1 - pct_to_dec cfgOddRental.vacancy_percent)) ∧
    mortgage_payment_monthlyE { cfgMain with amort_years := 0 }
      = .error .zeroDivision ∧
    runE { cfgMain with years := 0, annual_interest_percent := 0 }
      = .error .emptyFrame ∧
    AutoSim.down_payment_for_cashflowE cfgSweep 50 5 0
      = .error .emptyFrame := by
  refine ⟨C5_no_validation.1 cfgOddRental 1000 (by decide),
    C5_no_validation.2.1 { cfgMain with amort_years := 0 } (by decide), ?_,
    C5_no_validation.2.2.2.2.1 cfgSweep 50 5⟩
  exact C5_no_validation.2.2.2.1
    { cfgMain with years := 0, annual_interest_percent := 0 }
    (20000 / 3) (by decide) (by decide)

set_option maxRecDepth 100000 in
unseal Rat.mul Rat.add Rat.sub Rat.inv in
/-- Witness for the amended C6 at `cfgMain`. -/
theorem C6_run_succeeds_witness : (cfgMain.runE).isOk = true :=
  C6_run_succeeds cfgMain (by decide) (by decide) (by decide) (by decide)
    (by decide)

set_option maxRecDepth 100000 in
unseal Rat.mul Rat.add Rat.sub Rat.inv in
/-- Witness for C9 at `cfgMain` (month 0's cumulative cash flow is
negative, so the payback month is selected by the first-crossing scan). -/
theorem C9_payback_witness :
    (runResult cfgMain).2.payback_month_on_upfront
      = (runResult cfgMain).1.findIdx?
          (fun r => decide (cfgMain.total_upfront ≤ r.cumulative_cash_flow)) := by
  have h := C9_payback cfgMain (runResult cfgMain).1
    (runResult cfgMain).2 (by rfl)
    ((runResult cfgMain).1.getD 0 rec0) (by rfl)
  exact h.2 (by decide)

set_option maxRecDepth 100000 in
unseal Rat.mul Rat.add Rat.sub Rat.inv in
/-- Witness for C10 at `cfgPayoff`: payoff month 11 still records the full
positive payment, month 12 records 0. -/
theorem C10_payoff_month_witness :
    0 < pmtVal cfgPayoff ∧
    ((simResult cfgPayoff).2.getD 11 rec0).mortgage_payment = pmtVal cfgPayoff ∧
    ((simResult cfgPayoff).2.getD 12 rec0).mortgage_payment = 0 := by
  have h := C10_payoff_month cfgPayoff (by decide) (by decide) (by decide)
    (by decide) (simResult cfgPayoff).1 (simResult cfgPayoff).2
    (by rfl) 11 (by decide) (by decide) (by decide)
  exact ⟨h.1, h.2.1, h.2.2.2 12 (by decide) (by decide)⟩
end PropertySim

namespace AutoSim

open PropertySim

set_option maxRecDepth 100000 in
unseal Rat.mul Rat.add Rat.sub Rat.inv in
/-- Witness for C7: a sweep of `cfgSweep` from 90% to 99% with 2 samples. -/
theorem C7_sweep_witness :
    1 ≤ (sweepResult cfgSweep 99 90 2).1.length ∧
    (sweepResult cfgSweep 99 90 2).1.length ≤ 2 ∧
    (linspace 90 99 2).getD 0 0 = 90 ∧
    (linspace 90 99 2).getD 1 0 = 99 := by
  have h := C7_sweep cfgSweep 90 99 2 (by decide) (by decide)
    (sweepResult cfgSweep 99 90 2).1
    (sweepResult cfgSweep 99 90 2).2.1
    (sweepResult cfgSweep 99 90 2).2.2 (by rfl)
  exact ⟨h.2.2.2.2.2.1, h.2.2.2.2.2.2.1, h.2.1, h.2.2.1⟩

set_option maxRecDepth 100000 in
unseal Rat.mul Rat.add Rat.sub Rat.inv in
/-- Witness for C8: a sweep of `cfgSweep` from 5% to 50% finds no positive
cash flow, and both break-even components are `none`. -/
theorem C8_breakeven_witness :
    (sweepResult cfgSweep 50 5 2).2.1 = none ∧
    (sweepResult cfgSweep 50 5 2).2.2 = none := by
  have h := C8_breakeven cfgSweep 5 50 2 (by decide) (by decide)
    (sweepResult cfgSweep 50 5 2).1
    (sweepResult cfgSweep 50 5 2).2.1
    (sweepResult cfgSweep 50 5 2).2.2 (by rfl)
  exact h.2.1

end AutoSim
